import Mathlib

/-!
# Verification of the bramble serial/storage core

Shallow embedding of the serial command/response engine, message router,
batch receiver (`src/api/serial_interface.py`) and of the sensor database
and write buffer (`src/api/database.py`), together with proofs of the
behavioural claims about them.

Conventions of the embedding:
* Python `str` is Lean `String`; `str.split()` (no argument) and decimal
  `int(...)` are modelled character-for-character below.
* Python floats (values of `time.time()`) are modelled as `ℚ`.
* Python exceptions are values of `PyExc`; a `try/except` block is an
  explicit `match` on an `Except` value.  Where an exception can escape a
  function after state was already mutated, the error value carries the
  state at the raise point (Python mutations are not rolled back).
* Database effects are modelled relationally on a `DB` record; each SQL
  `conn.execute` call passes through `execGuard`, whose `failAt` schedule
  lets a `duckdb.Error` be injected at any chosen call, modelling storage
  faults.  Logging calls of the database layer are not modelled; the
  serial-interface layer keeps a log because the claims refer to it.
-/

namespace Bramble

attribute [local semireducible] Rat.add Rat.sub Rat.mul

/-! ## Python semantics helpers -/

/-- One character class used by Python `str.split()` with no argument. -/
def isPyWs (c : Char) : Bool := c.isWhitespace

/-- Helper for `pySplit`: walk the character list, `acc` holds the current
word reversed. -/
def splitWsAux : List Char → List Char → List String
  | [], acc => if acc = [] then [] else [String.mk acc.reverse]
  | c :: cs, acc =>
    if isPyWs c then
      if acc = [] then splitWsAux cs []
      else String.mk acc.reverse :: splitWsAux cs []
    else splitWsAux cs (c :: acc)

/-- Python `s.split()` with no argument: split on runs of whitespace and
drop empty fragments. -/
def pySplit (s : String) : List String := splitWsAux s.data []

/-- Digits of a decimal literal; `none` when empty or a non-digit occurs. -/
def digitsToNat : List Char → Option Nat
  | [] => none
  | ds => go ds 0
where
  go : List Char → Nat → Option Nat
    | [], acc => some acc
    | c :: cs, acc => if c.isDigit then go cs (acc * 10 + (c.toNat - '0'.toNat)) else none

/-- Python `int(s)` on the decimal tokens of this wire protocol: an optional
sign followed by digits; `none` models `ValueError`.  (The tokens come out
of `pySplit`, so surrounding whitespace never occurs.) -/
def pyInt (s : String) : Option Int :=
  match s.data with
  | '-' :: rest => (digitsToNat rest).map (fun n => -(n : Int))
  | '+' :: rest => (digitsToNat rest).map (fun n => (n : Int))
  | ds => (digitsToNat ds).map (fun n => (n : Int))

/-- Python `s.startswith(pre)`. -/
def pyStartsWith (s pre : String) : Bool := List.isPrefixOf pre.data s.data

/-- The Python exceptions that can arise in the embedded code. -/
inductive PyExc where
  | valueError
  | indexError
  | typeError
  | runtimeError
  | timeoutError
  | duckdbError
  deriving DecidableEq, Repr

/-- Python `int(s)` raising `ValueError` on a malformed literal. -/
def pyIntExc (s : String) : Except PyExc Int :=
  match pyInt s with
  | some v => .ok v
  | none => .error .valueError

/-- Python list indexing `xs[i]`, raising `IndexError` out of range. -/
def pyIndex {α : Type} (xs : List α) (i : Nat) : Except PyExc α :=
  match xs.get? i with
  | some v => .ok v
  | none => .error .indexError

instance exceptDecEq {ε α : Type} [DecidableEq ε] [DecidableEq α] :
    DecidableEq (Except ε α) := fun a b =>
  match a, b with
  | .error e, .error e' =>
    match decEq e e' with
    | isTrue h => isTrue (h ▸ rfl)
    | isFalse h => isFalse (fun hh => h (Except.error.inj hh))
  | .ok x, .ok y =>
    match decEq x y with
    | isTrue h => isTrue (h ▸ rfl)
    | isFalse h => isFalse (fun hh => h (Except.ok.inj hh))
  | .error _, .ok _ => isFalse (fun hh => Except.noConfusion hh)
  | .ok _, .error _ => isFalse (fun hh => Except.noConfusion hh)

/-- `int(time.time())`: the clock is nonnegative, so truncation toward zero
agrees with the floor. -/
def pyClockInt (now : ℚ) : Int := Rat.floor now

/-- A Python value passed as a keyword argument (an int or `None`). -/
inductive PyVal where
  | int (n : Int)
  | noneV
  deriving DecidableEq, Repr

/-! ## `SensorReading` (`src/api/database.py`, dataclass) -/

/-- The `SensorReading` dataclass of `database.py`. -/
structure SensorReading where
  device_id : Int
  timestamp : Int
  temperature_centidegrees : Int
  humidity_centipercent : Int
  flags : Int := 0
  received_at : Option Int := none
  address : Option Int := none
  deriving DecidableEq, Repr

/-- The field names of the `SensorReading` dataclass, in declaration order. -/
def sensorReadingFields : List String :=
  ["device_id", "timestamp", "temperature_centidegrees", "humidity_centipercent",
   "flags", "received_at", "address"]

/-- Look up a required int-typed field among the keyword arguments.  A missing
required field raises `TypeError` in Python.  (No call site in the sources
passes `None` for these.) -/
def kwargInt (kwargs : List (String × PyVal)) (name : String) : Except PyExc Int :=
  match kwargs.lookup name with
  | some (.int v) => .ok v
  | _ => .error .typeError

/-- Look up an int-typed field with a default. -/
def kwargIntD (kwargs : List (String × PyVal)) (name : String) (d : Int) : Int :=
  match kwargs.lookup name with
  | some (.int v) => v
  | _ => d

/-- Look up an `Optional[int]` field defaulting to `None`. -/
def kwargOpt (kwargs : List (String × PyVal)) (name : String) : Option Int :=
  match kwargs.lookup name with
  | some (.int v) => some v
  | _ => none

/-- Python call semantics of `SensorReading(**kwargs)` (keyword arguments
only, which is how every call site in the sources invokes it): a keyword
that is not a dataclass field raises `TypeError` (unexpected keyword
argument), as does a missing required field. -/
def callSensorReading (kwargs : List (String × PyVal)) : Except PyExc SensorReading := do
  if ¬ (kwargs.map Prod.fst).all (fun n => sensorReadingFields.contains n) then
    throw .typeError
  let d ← kwargInt kwargs "device_id"
  let t ← kwargInt kwargs "timestamp"
  let temp ← kwargInt kwargs "temperature_centidegrees"
  let hum ← kwargInt kwargs "humidity_centipercent"
  pure { device_id := d, timestamp := t, temperature_centidegrees := temp,
         humidity_centipercent := hum, flags := kwargIntD kwargs "flags" 0,
         received_at := kwargOpt kwargs "received_at",
         address := kwargOpt kwargs "address" }

/-! ## Database model (`src/api/database.py`, `SensorDatabase`) -/

/-- A row of the `sensor_readings` table. -/
structure Row where
  id : Int
  device_id : Int
  address : Option Int
  timestamp : Int
  temperature_centidegrees : Int
  humidity_centipercent : Int
  flags : Int
  received_at : Int
  deriving DecidableEq, Repr

/-- A row of the `nodes` table. -/
structure NodeRow where
  device_id : Int
  address : Option Int
  node_type : String
  first_seen_at : Int
  last_seen_at : Int
  total_readings : Int
  deriving DecidableEq, Repr

/-- The database state: the two tables touched by the insert paths, the
`_id_counter` of `SensorDatabase`, and the fault model for `conn.execute`
(`execCount` counts executed statements, `failAt` is the index of the
statement at which a `duckdb.Error` is raised, `none` for a healthy run). -/
structure DB where
  rows : List Row
  nodes : List NodeRow
  id_counter : Int
  execCount : Nat
  failAt : Option Nat
  deriving DecidableEq, Repr

/-- A freshly initialized database. -/
def DB.empty : DB := { rows := [], nodes := [], id_counter := 0, execCount := 0, failAt := none }

/-- One `conn.execute` call: raises `duckdb.Error` when the fault schedule
says so, otherwise counts the statement.  The error carries the state at
the raise point (DuckDB auto-commits each statement, so earlier effects
persist). -/
def execGuard (db : DB) : Except (PyExc × DB) DB :=
  if db.failAt = some db.execCount then .error (.duckdbError, db)
  else .ok { db with execCount := db.execCount + 1 }

/-- Does the `sensor_readings` table hold a row with this
(`device_id`, `timestamp`) key? -/
def hasKey (rows : List Row) (d t : Int) : Bool :=
  rows.any (fun row => row.device_id == d && row.timestamp == t)

/-- The rows holding a given (`device_id`, `timestamp`) key. -/
def rowsWithKey (rows : List Row) (d t : Int) : List Row :=
  rows.filter (fun row => row.device_id == d && row.timestamp == t)

/-- The `sensor_readings` row built from a reading by the insert
statements. -/
def newRow (new_id : Int) (r : SensorReading) (received_at : Int) : Row :=
  { id := new_id, device_id := r.device_id, address := r.address,
    timestamp := r.timestamp, temperature_centidegrees := r.temperature_centidegrees,
    humidity_centipercent := r.humidity_centipercent, flags := r.flags,
    received_at := received_at }

/-- `INSERT INTO sensor_readings ... ON CONFLICT (device_id, timestamp) DO
NOTHING`: the row is appended unless the key is already present. -/
def sqlInsertReadingRow (db : DB) (new_id : Int) (r : SensorReading) (received_at : Int) :
    Except (PyExc × DB) DB :=
  match execGuard db with
  | .error e => .error e
  | .ok db =>
    if hasKey db.rows r.device_id r.timestamp then .ok db
    else .ok { db with rows := db.rows ++ [newRow new_id r received_at] }

/-- `SELECT COUNT(*) FROM sensor_readings WHERE id = ?`. -/
def sqlCountById (db : DB) (new_id : Int) : Except (PyExc × DB) (Nat × DB) :=
  match execGuard db with
  | .error e => .error e
  | .ok db => .ok (db.rows.countP (fun row => row.id == new_id), db)

/-- `SensorDatabase._update_node_stats` (database.py lines 399–428): update
or create the `nodes` row for the device.  The address is rewritten only
when the Python condition `address and existing[1] != address` holds
(`address` is falsy when `None` or `0`). -/
def update_node_stats (db : DB) (device_id : Int) (address : Option Int) (timestamp : Int) :
    Except (PyExc × DB) DB :=
  match execGuard db with
  | .error e => .error e
  | .ok db =>
    match db.nodes.find? (fun n => n.device_id == device_id) with
    | some existing =>
      let updateAddr : Bool :=
        match address with
        | some a => decide (a ≠ 0) && decide (existing.address ≠ some a)
        | none => false
      match execGuard db with
      | .error e => .error e
      | .ok db => .ok { db with nodes := db.nodes.map (fun n =>
          if n.device_id == device_id then
            { n with address := if updateAddr then address else n.address,
                     last_seen_at := max n.last_seen_at timestamp,
                     total_readings := n.total_readings + 1 }
          else n) }
    | none =>
      match execGuard db with
      | .error e => .error e
      | .ok db => .ok { db with nodes := db.nodes ++
          [{ device_id := device_id, address := address, node_type := "SENSOR",
             first_seen_at := timestamp, last_seen_at := timestamp,
             total_readings := 1 }] }

/-- Python `reading.received_at or <fallback>`: `None` and `0` are falsy. -/
def receivedAtOr (r : SensorReading) (fallback : Int) : Int :=
  match r.received_at with
  | some v => if v = 0 then fallback else v
  | none => fallback

/-- The `try` body of `SensorDatabase.insert_reading`. -/
def insert_reading_body (db : DB) (r : SensorReading) (received_at new_id : Int) :
    Except (PyExc × DB) (Bool × DB) :=
  match sqlInsertReadingRow db new_id r received_at with
  | .error e => .error e
  | .ok db =>
    match sqlCountById db new_id with
    | .error e => .error e
    | .ok (count, db) =>
      if count > 0 then
        match update_node_stats db r.device_id r.address r.timestamp with
        | .error e => .error e
        | .ok db => .ok (true, db)
      else .ok (false, db)

/-- `SensorDatabase.insert_reading` (database.py lines 294–339): returns
`True` if inserted, `False` if duplicate; a `duckdb.Error` is caught and
reported as `False`. -/
def insert_reading (now : ℚ) (db : DB) (r : SensorReading) : Bool × DB :=
  let received_at := receivedAtOr r (pyClockInt now)
  let new_id := db.id_counter + 1
  let db := { db with id_counter := new_id }
  match insert_reading_body db r received_at new_id with
  | .ok res => res
  | .error (_, db') => (false, db')

/-- The per-reading loop inside `SensorDatabase.insert_batch`. -/
def insert_batch_loop (received_at : Int) :
    List SensorReading → Int → Int → DB → Except (PyExc × DB) ((Int × Int) × DB)
  | [], inserted, duplicates, db => .ok ((inserted, duplicates), db)
  | r :: rest, inserted, duplicates, db =>
    let ts := receivedAtOr r received_at
    let new_id := db.id_counter + 1
    let db := { db with id_counter := new_id }
    match sqlInsertReadingRow db new_id r ts with
    | .error e => .error e
    | .ok db =>
      match sqlCountById db new_id with
      | .error e => .error e
      | .ok (count, db) =>
        if count > 0 then
          match update_node_stats db r.device_id r.address r.timestamp with
          | .error e => .error e
          | .ok db => insert_batch_loop received_at rest (inserted + 1) duplicates db
        else insert_batch_loop received_at rest inserted (duplicates + 1) db

/-- `SensorDatabase.insert_batch` (database.py lines 341–397): inserts the
readings one by one inside a single `try`, returning
(`inserted_count`, `duplicate_count`); the empty list short-circuits to
`(0, 0)`, and a `duckdb.Error` anywhere yields `(0, len(readings))`. -/
def insert_batch (now : ℚ) (db : DB) (readings : List SensorReading) : (Int × Int) × DB :=
  if readings = [] then ((0, 0), db)
  else
    let received_at := pyClockInt now
    match insert_batch_loop received_at readings 0 0 db with
    | .ok res => res
    | .error (_, db') => ((0, (readings.length : Int)), db')

/-- Did a run of the `insert_batch` loop raise a database error? -/
def insertBatchErrs (now : ℚ) (db : DB) (readings : List SensorReading) : Bool :=
  match insert_batch_loop (pyClockInt now) readings 0 0 db with
  | .ok _ => false
  | .error _ => true

/-! ## `WriteBuffer` (`src/api/database.py`, lines 60–113)

The buffer operations run under `self._lock`; the lock serializes the
operations, so each is modelled as one atomic state transition.  Each
operation that reads the clock takes the current `time.time()` value as the
`now` argument.  `add` and `maybe_flush` additionally report how many times
`_flush` ran inside the call, which is what the flush-trigger claims are
about. -/

/-- The `WriteBuffer` state, together with the database it writes to. -/
structure WB where
  db : DB
  buffer : List SensorReading
  max_size : Nat
  flush_interval : ℚ
  last_flush : ℚ
  deriving DecidableEq, Repr

/-- `WriteBuffer._flush` (lines 94–104): nothing happens on an empty buffer;
otherwise the buffered list goes to `insert_batch` (whose outcome is only
logged — `insert_batch` itself absorbs `duckdb.Error`), the buffer is
cleared and the timer reset. -/
def wbFlushInternal (now : ℚ) (wb : WB) : WB :=
  if wb.buffer = [] then wb
  else
    let db' := (insert_batch now wb.db wb.buffer).2
    { wb with db := db', buffer := [], last_flush := now }

/-- `WriteBuffer.add` (lines 81–86): append, then flush when the size
threshold is reached.  The second component counts the `_flush` runs. -/
def wbAdd (now : ℚ) (wb : WB) (r : SensorReading) : WB × Nat :=
  let wb := { wb with buffer := wb.buffer ++ [r] }
  if wb.buffer.length ≥ wb.max_size then (wbFlushInternal now wb, 1) else (wb, 0)

/-- `WriteBuffer.maybe_flush` (lines 88–92): flush when the buffer is
non-empty and the flush interval has elapsed. -/
def wbMaybeFlush (now : ℚ) (wb : WB) : WB × Nat :=
  if wb.buffer ≠ [] ∧ now - wb.last_flush ≥ wb.flush_interval then
    (wbFlushInternal now wb, 1)
  else (wb, 0)

/-- `WriteBuffer.flush` (lines 106–109). -/
def wbFlush (now : ℚ) (wb : WB) : WB := wbFlushInternal now wb

/-- A sequence of `add` calls at given times, accumulating the flush count. -/
def wbAddAll : List (ℚ × SensorReading) → WB → WB × Nat
  | [], wb => (wb, 0)
  | (now, r) :: rest, wb =>
    let (wb', k) := wbAdd now wb r
    let (wb'', k') := wbAddAll rest wb'
    (wb'', k + k')

/-! ## Serial interface (`src/api/serial_interface.py`)

State of one `SerialInterface`.  The serial handle is modelled by the flag
`serial_open` (`self.serial and self.serial.is_open`); bytes written back to
the hub are collected in `written` (an open link accepts writes).  Each
handler takes the ambient clock/date as an `Env` since the source reads
`time.time()` / `datetime.now()` inside the handlers.  Handlers return
`Except (PyExc × SI) SI`: the error case is an exception escaping the
handler, carrying the interface state at the raise point. -/

/-- Log levels of the `logging` calls the claims refer to. -/
inductive LogLevel where
  | debug
  | info
  | warning
  | error
  deriving DecidableEq, Repr

/-- One log record (the level and a tag identifying the logging site;
interpolated values are not modelled). -/
structure LogEntry where
  level : LogLevel
  msg : String
  deriving DecidableEq, Repr

/-- `self._batch_state` (a dict with these four keys when a batch is
active). -/
structure BatchState where
  node_addr : Int
  expected_count : Int
  records : List SensorReading
  start_time : ℚ
  deriving DecidableEq, Repr

/-- The mutable state of a `SerialInterface`. -/
structure SI where
  serial_open : Bool
  response_queue : List String
  batch_state : Option BatchState
  database : Option DB
  written : List String
  log : List LogEntry
  deriving DecidableEq, Repr

/-- Append a log record. -/
def SI.addLog (st : SI) (lvl : LogLevel) (msg : String) : SI :=
  { st with log := st.log ++ [{ level := lvl, msg := msg }] }

/-- `logger.debug`. -/
def SI.logDebug (st : SI) (msg : String) : SI := st.addLog .debug msg

/-- `logger.info`. -/
def SI.logInfo (st : SI) (msg : String) : SI := st.addLog .info msg

/-- `logger.warning`. -/
def SI.logWarn (st : SI) (msg : String) : SI := st.addLog .warning msg

/-- `logger.error`. -/
def SI.logError (st : SI) (msg : String) : SI := st.addLog .error msg

/-- `self.serial.write(...); self.serial.flush()` on an open link. -/
def SI.write (st : SI) (s : String) : SI := { st with written := st.written ++ [s] }

/-- The value of `datetime.now()`: the broken-down fields used by
`strftime` plus Python's `weekday()` (0 = Monday). -/
structure PyDateTime where
  year : Nat
  month : Nat
  day : Nat
  hour : Nat
  minute : Nat
  second : Nat
  weekday : Nat
  deriving DecidableEq, Repr

/-- Ambient clock and date for one handler invocation. -/
structure Env where
  now : ℚ
  dt : PyDateTime
  deriving DecidableEq, Repr

/-- Zero-pad to two digits. -/
def pad2 (n : Nat) : String := if n < 10 then "0" ++ toString n else toString n

/-- Zero-pad to four digits. -/
def pad4 (n : Nat) : String :=
  if n < 10 then "000" ++ toString n
  else if n < 100 then "00" ++ toString n
  else if n < 1000 then "0" ++ toString n
  else toString n

/-- `now.strftime('%Y-%m-%d %H:%M:%S')`. -/
def strftimeYmdHMS (dt : PyDateTime) : String :=
  pad4 dt.year ++ "-" ++ pad2 dt.month ++ "-" ++ pad2 dt.day ++ " " ++
  pad2 dt.hour ++ ":" ++ pad2 dt.minute ++ ":" ++ pad2 dt.second

/-- The response line built by `_handle_datetime_query` (lines 128–143):
`DATETIME <date> <weekday>` with the hub weekday `(weekday + 1) % 7`
(0 = Sunday). -/
def datetimeResponse (dt : PyDateTime) : String :=
  "DATETIME " ++ strftimeYmdHMS dt ++ " " ++ toString ((dt.weekday + 1) % 7) ++ "\n"

/-- `SerialInterface._handle_datetime_query`: write the formatted response;
a write failure (closed or absent handle) is caught and logged. -/
def handle_datetime_query (env : Env) (st : SI) : SI :=
  if st.serial_open then
    (st.write (datetimeResponse env.dt)).logInfo "Responded to datetime query"
  else st.logError "Failed to send datetime response"

/-- The `BATCH_ACK` line of `_send_batch_ack` (lines 410–428). -/
def batchAckLine (node_addr count status : Int) : String :=
  "BATCH_ACK " ++ toString node_addr ++ " " ++ toString count ++ " " ++
  toString status ++ "\n"

/-- `SerialInterface._send_batch_ack`: refuse (with a log) when the link is
not open, otherwise write the ack line; write failures are caught. -/
def send_batch_ack (st : SI) (node_addr count status : Int) : SI :=
  if ¬ st.serial_open then st.logError "Cannot send BATCH_ACK: serial not open"
  else (st.write (batchAckLine node_addr count status)).logInfo "Sent BATCH_ACK"

/-- The final store step of the `SENSOR_DATA` `try` block:
`self.database.insert_reading(reading)` with its info/debug log. -/
def storeSingleReading (env : Env) (st : SI) (db0 : DB) (reading : SensorReading) : SI :=
  let res := insert_reading env.now db0 reading
  let st := { st with database := some res.2 }
  if res.1 then st.logInfo "Stored sensor data" else st.logDebug "Duplicate sensor data"

/-- The `try` block of `_handle_sensor_data` (lines 264–301). -/
def handle_sensor_data_try (env : Env) (st : SI) (db0 : DB) (line : String) :
    Except PyExc SI :=
  let parts := pySplit line
  if parts.length < 4 then .ok (st.logError "Invalid SENSOR_DATA format")
  else
    match pyIndex parts 1 with
    | .error e => .error e
    | .ok tok1 =>
      match pyIntExc tok1 with
      | .error e => .error e
      | .ok node_addr =>
        match pyIndex parts 2 with
        | .error e => .error e
        | .ok sensor_type =>
          match pyIndex parts 3 with
          | .error e => .error e
          | .ok tok3 =>
            match pyIntExc tok3 with
            | .error e => .error e
            | .ok value =>
              let timestamp := pyClockInt env.now
              if sensor_type = "TEMP" then
                match callSensorReading
                    [("node_address", .int node_addr), ("timestamp", .int timestamp),
                     ("temperature_centidegrees", .int value),
                     ("humidity_centipercent", .int 0), ("received_at", .int timestamp)] with
                | .error e => .error e
                | .ok reading => .ok (storeSingleReading env st db0 reading)
              else if sensor_type = "HUM" then
                match callSensorReading
                    [("node_address", .int node_addr), ("timestamp", .int timestamp),
                     ("temperature_centidegrees", .int 0),
                     ("humidity_centipercent", .int value), ("received_at", .int timestamp)] with
                | .error e => .error e
                | .ok reading => .ok (storeSingleReading env st db0 reading)
              else .ok (st.logWarn "Unknown sensor type")

/-- `SerialInterface._handle_sensor_data` (lines 255–303).  Note that the
source builds the reading as `SensorReading(node_address=..., ...)`; the
keyword check is performed by `callSensorReading` against the dataclass
fields, and its `TypeError` is not caught by the handler's
`except (ValueError, IndexError)`. -/
def handle_sensor_data (env : Env) (st : SI) (line : String) : Except (PyExc × SI) SI :=
  match st.database with
  | none => .ok (st.logWarn "Received sensor data but no database configured")
  | some db0 =>
    match handle_sensor_data_try env st db0 line with
    | .ok st' => .ok st'
    | .error .valueError => .ok (st.logError "Failed to parse SENSOR_DATA")
    | .error .indexError => .ok (st.logError "Failed to parse SENSOR_DATA")
    | .error e => .error (e, st)

/-- Parse `parts[i]` then `int(...)` for the two numeric fields of the short
push headers. -/
def parseIntAt (parts : List String) (i : Nat) : Except PyExc Int :=
  match pyIndex parts i with
  | .error e => .error e
  | .ok tok => pyIntExc tok

/-- The `try` block of `_handle_sensor_batch_start` (lines 310–326). -/
def handle_sensor_batch_start_try (env : Env) (st : SI) (line : String) :
    Except PyExc SI :=
  let parts := pySplit line
  if parts.length < 3 then .ok (st.logError "Invalid SENSOR_BATCH format")
  else
    match parseIntAt parts 1 with
    | .error e => .error e
    | .ok node_addr =>
      match parseIntAt parts 2 with
      | .error e => .error e
      | .ok count =>
        let newBatch : BatchState :=
          { node_addr := node_addr, expected_count := count, records := [],
            start_time := env.now }
        .ok (({ st with batch_state := some newBatch }).logInfo "Starting batch receive")

/-- `SerialInterface._handle_sensor_batch_start` (lines 305–329). -/
def handle_sensor_batch_start (env : Env) (st : SI) (line : String) :
    Except (PyExc × SI) SI :=
  match handle_sensor_batch_start_try env st line with
  | .ok st' => .ok st'
  | .error .valueError => .ok (st.logError "Failed to parse SENSOR_BATCH")
  | .error .indexError => .ok (st.logError "Failed to parse SENSOR_BATCH")
  | .error e => .error (e, st)

/-- The `try` block of `_handle_sensor_record` (lines 340–362). -/
def handle_sensor_record_try (env : Env) (st : SI) (bs : BatchState) (line : String) :
    Except PyExc SI :=
  let parts := pySplit line
  if parts.length < 6 then .ok (st.logError "Invalid SENSOR_RECORD format")
  else
    match parseIntAt parts 1 with
    | .error e => .error e
    | .ok node_addr =>
      match parseIntAt parts 2 with
      | .error e => .error e
      | .ok timestamp =>
        match parseIntAt parts 3 with
        | .error e => .error e
        | .ok temperature =>
          match parseIntAt parts 4 with
          | .error e => .error e
          | .ok humidity =>
            match parseIntAt parts 5 with
            | .error e => .error e
            | .ok flags =>
              match callSensorReading
                  [("node_address", .int node_addr), ("timestamp", .int timestamp),
                   ("temperature_centidegrees", .int temperature),
                   ("humidity_centipercent", .int humidity), ("flags", .int flags),
                   ("received_at", .int (pyClockInt env.now))] with
              | .error e => .error e
              | .ok reading =>
                let bs' : BatchState := { bs with records := bs.records ++ [reading] }
                .ok (({ st with batch_state := some bs' }).logDebug "Batch record")

/-- `SerialInterface._handle_sensor_record` (lines 331–365).  The record is
built with the keyword `node_address`, which is not a `SensorReading`
field: the resulting `TypeError` escapes the `except (ValueError,
IndexError)` clause. -/
def handle_sensor_record (env : Env) (st : SI) (line : String) :
    Except (PyExc × SI) SI :=
  match st.batch_state with
  | none => .ok (st.logWarn "Received SENSOR_RECORD without active batch")
  | some bs =>
    match handle_sensor_record_try env st bs line with
    | .ok st' => .ok st'
    | .error .valueError => .ok (st.logError "Failed to parse SENSOR_RECORD")
    | .error .indexError => .ok (st.logError "Failed to parse SENSOR_RECORD")
    | .error e => .error (e, st)

/-- `SerialInterface._handle_batch_complete` (lines 367–408): count check
(mismatch only warned), single batch insert of the collected records, ack
with status `0 if inserted > 0 else 1`, and the batch state cleared; the
empty-records (or no-database) path warns and acks `(node, 0, 1)`.  A parse
failure clears the batch state in the `except` clause; the early return on
a short line keeps it. -/
def handle_batch_complete_try (env : Env) (st : SI) (bs : BatchState) (line : String) :
    Except PyExc SI :=
  let parts := pySplit line
  if parts.length < 3 then .ok (st.logError "Invalid BATCH_COMPLETE format")
  else
    match parseIntAt parts 1 with
    | .error e => .error e
    | .ok node_addr =>
      match parseIntAt parts 2 with
      | .error e => .error e
      | .ok count =>
        let actual_count := bs.records.length
        let st := if (actual_count : Int) ≠ count then
            st.logWarn "Batch count mismatch"
          else st
        let st :=
          match st.database with
          | some db =>
            if bs.records ≠ [] then
              let res := insert_batch env.now db bs.records
              let inserted := res.1.1
              let st := ({ st with database := some res.2 }).logInfo "Batch stored"
              send_batch_ack st node_addr inserted (if inserted > 0 then 0 else 1)
            else
              send_batch_ack
                (st.logWarn "No records to store or database not configured")
                node_addr 0 1
          | none =>
            send_batch_ack
              (st.logWarn "No records to store or database not configured")
              node_addr 0 1
        .ok (({ st with batch_state := none }).logInfo "Batch complete")

/-- `SerialInterface._handle_batch_complete` (lines 367–408), the
`try/except` wrapper around `handle_batch_complete_try`. -/
def handle_batch_complete (env : Env) (st : SI) (line : String) :
    Except (PyExc × SI) SI :=
  match st.batch_state with
  | none => .ok (st.logWarn "Received BATCH_COMPLETE without active batch")
  | some bs =>
    match handle_batch_complete_try env st bs line with
    | .ok st' => .ok st'
    | .error .valueError =>
      .ok (({ st with batch_state := none }).logError "Failed to parse BATCH_COMPLETE")
    | .error .indexError =>
      .ok (({ st with batch_state := none }).logError "Failed to parse BATCH_COMPLETE")
    | .error e => .error (e, st)

/-- `SerialInterface._handle_line` (lines 95–126): the router.  Priority
order as in the source: the exact query token, then the four push message
kinds, and by default the line joins the pending command's response
queue. -/
def handle_line (env : Env) (st0 : SI) (line : String) : Except (PyExc × SI) SI :=
  let st := st0.logDebug "Hub line"
  if line = "GET_DATETIME" then .ok (handle_datetime_query env st)
  else if pyStartsWith line "SENSOR_DATA " then handle_sensor_data env st line
  else if pyStartsWith line "SENSOR_BATCH " then handle_sensor_batch_start env st line
  else if pyStartsWith line "SENSOR_RECORD " then handle_sensor_record env st line
  else if pyStartsWith line "BATCH_COMPLETE " then handle_batch_complete env st line
  else .ok { st with response_queue := st.response_queue ++ [line] }

/-- One iteration of the body of `SerialInterface._read_loop` (lines 72–93)
for a completed line: `_handle_line` runs inside `try ... except Exception`,
so an escaping exception is logged and the loop moves on. -/
def read_loop_step (env : Env) (st : SI) (line : String) : SI :=
  match handle_line env st line with
  | .ok st' => st'
  | .error (_, stErr) => stErr.logError "Error in read loop"

/-- The read loop processing a sequence of completed lines in arrival
order. -/
def read_lines : List (Env × String) → SI → SI
  | [], st => st
  | (env, line) :: rest, st => read_lines rest (read_loop_step env st line)

/-! ## Command/response engine (`send_command`, lines 145–203, and
`_is_response_complete`, lines 205–251)

`send_command` holds `self.command_lock` for the whole call, drains stale
queued lines, writes the command and then polls `self.response_queue` with
a 0.1 s wait.  The poll loop is embedded over an explicit trace: one
`PollStep` per iteration, recording the `time.time()` value at the `while`
check, the poll outcome (a line, or `Empty` after the wait) and the
`time.time()` value read inside the `Empty` branch.  An exhausted trace
models the `while` condition failing from then on. -/

/-- One iteration of the poll loop of `send_command`. -/
structure PollStep where
  tBefore : ℚ
  poll : Option String
  tAfter : ℚ
  deriving DecidableEq, Repr

/-- `int(responses[0].split()[i])`, the expected-count extraction of the
header-count completion branches: `IndexError` when the header has too few
tokens, `ValueError` when the token is not a number. -/
def headerCount (hd : String) (i : Nat) : Except PyExc Int :=
  match pyIndex (pySplit hd) i with
  | .error e => .error e
  | .ok tok => pyIntExc tok

/-- `SerialInterface._is_response_complete`: the per-command-type completion
predicate.  `int(...)` on a malformed count raises `ValueError` (and a
headerless `split()` index raises `IndexError`); these propagate to the
caller. -/
def is_response_complete (command : String) (responses : List String) :
    Except PyExc Bool :=
  if responses = [] then .ok false
  else
    let last_line := responses.getLastD ""
    if pyStartsWith command "SET_SCHEDULE" || pyStartsWith command "REMOVE_SCHEDULE" then
      .ok (pyStartsWith last_line "QUEUED")
    else if pyStartsWith command "SET_WAKE_INTERVAL" || pyStartsWith command "SET_DATETIME" then
      .ok (pyStartsWith last_line "QUEUED")
    else if command = "LIST_NODES" then
      if responses.length == 1 && pyStartsWith (responses.headD "") "NODE_LIST" then
        (headerCount (responses.headD "") 1).map (fun count => decide (count = 0))
      else if pyStartsWith (responses.headD "") "NODE_LIST" then
        (headerCount (responses.headD "") 1).map (fun expected =>
          decide (expected ≤ (((responses.drop 1).countP
            (fun r => pyStartsWith r "NODE ") : Nat) : Int)))
      else .ok false
    else if pyStartsWith command "GET_QUEUE" then
      if responses.length == 1 && pyStartsWith (responses.headD "") "QUEUE" then
        (headerCount (responses.headD "") 2).map (fun count => decide (count = 0))
      else if pyStartsWith (responses.headD "") "QUEUE" then
        (headerCount (responses.headD "") 2).map (fun expected =>
          decide (expected ≤ (((responses.drop 1).countP
            (fun r => pyStartsWith r "UPDATE ") : Nat) : Int)))
      else .ok false
    else .ok false

/-- The response-collection loop of `send_command`: while the timeout has
not elapsed, poll; on a line, append it and stop if the completion
predicate fires; on `Empty`, stop early once something was received and
more than half a second has passed. -/
def collect_loop (command : String) (timeout start : ℚ) :
    List PollStep → List String → Except PyExc (List String)
  | [], responses => .ok responses
  | step :: rest, responses =>
    if step.tBefore - start < timeout then
      match step.poll with
      | some line =>
        let responses := responses ++ [line]
        match is_response_complete command responses with
        | .error e => .error e
        | .ok true => .ok responses
        | .ok false => collect_loop command timeout start rest responses
      | none =>
        if responses ≠ [] ∧ step.tAfter - start > mkRat 1 2 then .ok responses
        else collect_loop command timeout start rest responses
    else .ok responses

/-- `SerialInterface.send_command`: `RuntimeError` when the link is not open
or the write fails (`isOpen`, `writeOk`); otherwise collect responses and
raise `TimeoutError` when none arrived. -/
def send_command (isOpen writeOk : Bool) (command : String) (timeout start : ℚ)
    (steps : List PollStep) : Except PyExc (List String) :=
  if ¬ isOpen then .error .runtimeError
  else if ¬ writeOk then .error .runtimeError
  else
    match collect_loop command timeout start steps [] with
    | .error e => .error e
    | .ok responses => if responses = [] then .error .timeoutError else .ok responses

/-! ## State invariants and concrete states used by the theorems -/

/-- Concrete write buffer used by the C8 witness. -/
def wb8 : WB := { db := DB.empty, buffer := [], max_size := 2, flush_interval := 5, last_flush := 0 }

/-- Concrete reading used by the C8 witness. -/
def r8 : SensorReading :=
  { device_id := 1, timestamp := 10, temperature_centidegrees := 2500,
    humidity_centipercent := 6500 }

/-- An idle write buffer with an old flush timestamp (C9 counterexample). -/
def wbIdle : WB :=
  { db := DB.empty, buffer := [], max_size := 100, flush_interval := 5, last_flush := 0 }

/-- The schema's `UNIQUE(device_id, timestamp)` constraint as a state
invariant: no two rows share a key. -/
def KeyUnique (rows : List Row) : Prop :=
  List.Pairwise (fun a b => ¬ (a.device_id = b.device_id ∧ a.timestamp = b.timestamp)) rows

/-- Stored row ids never exceed `_id_counter` (established by
`_init_id_counter` at startup and preserved by the insert paths). -/
def IdsBounded (db : DB) : Prop := ∀ row ∈ db.rows, row.id ≤ db.id_counter

instance (db : DB) : Decidable (IdsBounded db) :=
  inferInstanceAs (Decidable (∀ row ∈ db.rows, row.id ≤ db.id_counter))

instance (rows : List Row) : Decidable (KeyUnique rows) :=
  inferInstanceAs (Decidable (List.Pairwise
    (fun a b : Row => ¬ (a.device_id = b.device_id ∧ a.timestamp = b.timestamp)) rows))

/-- The row a successful `insert_reading` appends. -/
def insertedRow (db : DB) (r : SensorReading) (received_at : Int) : Row :=
  newRow (db.id_counter + 1) r received_at

/-- Concrete reading used by the C7 witness. -/
def r7 : SensorReading :=
  { device_id := 5, timestamp := 100, temperature_centidegrees := 2500,
    humidity_centipercent := 6500 }

/-- Concrete database (already holding `r7`'s key) used by the C7 witness. -/
def db7 : DB :=
  { rows := [newRow 1 r7 99], nodes := [], id_counter := 1, execCount := 0, failAt := none }

/-- The interface state a routed line leaves behind, whether or not an
exception escaped the handler. -/
def routedState (res : Except (PyExc × SI) SI) : SI :=
  match res with
  | .ok st => st
  | .error (_, st) => st

/-- Did the routed line complete without an escaping exception? -/
def routedOk (res : Except (PyExc × SI) SI) : Bool :=
  match res with
  | .ok _ => true
  | .error _ => false

/-- Concrete clock/date shared by the router scenarios. -/
def dtW : PyDateTime :=
  { year := 2025, month := 3, day := 4, hour := 5, minute := 6, second := 7, weekday := 2 }

/-- Concrete handler environment shared by the router scenarios. -/
def envW : Env := { now := 0, dt := dtW }

/-- Concrete idle interface state shared by the router scenarios. -/
def stW : SI :=
  { serial_open := true, response_queue := [], batch_state := none,
    database := some DB.empty, written := [], log := [] }

/-- A concrete active batch state for the C6 witness. -/
def bsW : BatchState := { node_addr := 7, expected_count := 3, records := [], start_time := 0 }

/-- The C1 scenario: a batch start announcing 3 records, three well-formed
record lines, and the completion line, as received by the read loop. -/
def c1Lines : List (Env × String) :=
  [(envW, "SENSOR_BATCH 7 3"),
   (envW, "SENSOR_RECORD 7 100 2500 6500 0"),
   (envW, "SENSOR_RECORD 7 160 2510 6510 0"),
   (envW, "SENSOR_RECORD 7 220 2520 6520 0"),
   (envW, "BATCH_COMPLETE 7 3")]

/-! ## Write buffer: flush triggering and post-state -/

/-- As long as the size threshold is not reached, a sequence of `add` calls
only appends: no flush is triggered. -/
theorem wbAddAll_under_max : ∀ (adds : List (ℚ × SensorReading)) (wb : WB),
    wb.buffer.length + adds.length < wb.max_size →
    wbAddAll adds wb = ({ wb with buffer := wb.buffer ++ adds.map Prod.snd }, 0) := by
  intro adds
  induction adds with
  | nil => intro wb _; simp [wbAddAll]
  | cons a rest ih =>
    intro wb h
    obtain ⟨t, r⟩ := a
    simp only [List.length_cons] at h
    have hlt : ¬ ((wb.buffer ++ [r]).length ≥ wb.max_size) := by
      simp only [List.length_append, List.length_cons, List.length_nil]
      omega
    have hrec := ih { wb with buffer := wb.buffer ++ [r] } (by
      simp only [List.length_append, List.length_cons, List.length_nil]
      omega)
    simp only [wbAddAll, wbAdd, if_neg hlt, hrec, List.map_cons]
    simp [List.append_assoc]

/-- `add` when the size threshold is reached. -/
theorem wbAdd_flush_case (now : ℚ) (wb : WB) (r : SensorReading)
    (h : (wb.buffer ++ [r]).length ≥ wb.max_size) :
    wbAdd now wb r = (wbFlushInternal now { wb with buffer := wb.buffer ++ [r] }, 1) := by
  simp only [wbAdd]
  rw [if_pos h]

/-- `add` below the size threshold. -/
theorem wbAdd_noflush_case (now : ℚ) (wb : WB) (r : SensorReading)
    (h : ¬ ((wb.buffer ++ [r]).length ≥ wb.max_size)) :
    wbAdd now wb r = ({ wb with buffer := wb.buffer ++ [r] }, 0) := by
  simp only [wbAdd]
  rw [if_neg h]

/-- `_flush` on a non-empty buffer. -/
theorem wbFlushInternal_nonempty (now : ℚ) (wb : WB) (h : wb.buffer ≠ []) :
    wbFlushInternal now wb =
      { wb with db := (insert_batch now wb.db wb.buffer).2, buffer := [],
                last_flush := now } := by
  simp [wbFlushInternal, h]

/-- C8 — the flush triggers of the write buffer: adds below the size
threshold never flush; the add reaching `max_size` flushes exactly once
inside the call; `maybe_flush` flushes exactly when the buffer is non-empty
and the interval has elapsed, and never right after a flush; the buffer
length never exceeds the maximum after a flush check. -/
theorem C8_write_buffer_flush_triggers (wb : WB) (adds : List (ℚ × SensorReading))
    (now now' : ℚ) (r : SensorReading) :
    (wb.buffer = [] → adds.length < wb.max_size →
      (wbAddAll adds wb).2 = 0 ∧ (wbAddAll adds wb).1.buffer.length = adds.length) ∧
    (wb.buffer.length + 1 = wb.max_size →
      (wbAdd now wb r).2 = 1 ∧ (wbAdd now wb r).1.buffer = []) ∧
    ((wbMaybeFlush now wb).2 = 1 ↔
      (wb.buffer ≠ [] ∧ now - wb.last_flush ≥ wb.flush_interval)) ∧
    (wbMaybeFlush now' (wbFlush now wb)).2 = 0 ∧
    (wbAdd now wb r).1.buffer.length ≤ wb.max_size ∧
    (wbMaybeFlush now wb).1.buffer.length ≤ wb.buffer.length := by
  refine ⟨?_, ?_, ?_, ?_, ?_, ?_⟩
  · intro hempty hlen
    have := wbAddAll_under_max adds wb (by rw [hempty]; simpa using hlen)
    rw [this]
    simp [hempty]
  · intro hthresh
    have hcond : (wb.buffer ++ [r]).length ≥ wb.max_size := by
      simp only [List.length_append, List.length_cons, List.length_nil]
      omega
    have hne : wb.buffer ++ [r] ≠ [] := by simp
    rw [wbAdd_flush_case now wb r hcond,
        wbFlushInternal_nonempty now { wb with buffer := wb.buffer ++ [r] } (by simp)]
    exact ⟨rfl, rfl⟩
  · constructor
    · intro h
      by_contra hc
      simp only [wbMaybeFlush] at h
      rw [if_neg hc] at h
      exact absurd h (by simp)
    · intro hc
      simp [wbMaybeFlush, hc]
  · by_cases hb : wb.buffer = []
    · simp [wbFlush, wbFlushInternal, hb, wbMaybeFlush]
    · simp [wbFlush, wbFlushInternal, hb, wbMaybeFlush]
  · by_cases hcond : (wb.buffer ++ [r]).length ≥ wb.max_size
    · have hne : wb.buffer ++ [r] ≠ [] := by simp
      rw [wbAdd_flush_case now wb r hcond,
          wbFlushInternal_nonempty now { wb with buffer := wb.buffer ++ [r] } (by simp)]
      simp
    · rw [wbAdd_noflush_case now wb r hcond]
      simp only [List.length_append, List.length_cons, List.length_nil] at hcond ⊢
      omega
  · by_cases hcond : wb.buffer ≠ [] ∧ now - wb.last_flush ≥ wb.flush_interval
    · rw [show wbMaybeFlush now wb = (wbFlushInternal now wb, 1) by simp [wbMaybeFlush, hcond],
          wbFlushInternal_nonempty now wb hcond.1]
      simp
    · simp [wbMaybeFlush, hcond]

/-- Witness for C8 at concrete inputs. -/
theorem C8_write_buffer_flush_triggers_witness :
    (wbAddAll [(0, r8)] wb8).2 = 0 ∧
    (wbAdd 0 { wb8 with buffer := [r8] } r8).2 = 1 ∧
    (wbMaybeFlush 6 { wb8 with buffer := [r8] }).2 = 1 ∧
    (wbMaybeFlush 6 (wbFlush 6 { wb8 with buffer := [r8] })).2 = 0 := by
  refine ⟨((C8_write_buffer_flush_triggers wb8 [(0, r8)] 0 0 r8).1 rfl (by decide)).1,
    ((C8_write_buffer_flush_triggers { wb8 with buffer := [r8] } [] 0 0 r8).2.1 (by decide)).1,
    ?_, ?_⟩
  · exact ((C8_write_buffer_flush_triggers { wb8 with buffer := [r8] } [] 6 6 r8).2.2.1).mpr
      ⟨by decide, by decide⟩
  · exact (C8_write_buffer_flush_triggers { wb8 with buffer := [r8] } [] 6 6 r8).2.2.2.1

/-- C9 counterexample: on an empty buffer, `flush()` returns early and does
NOT reset the last-flush timestamp, so the claim's "for every buffer state
... the last-flush timestamp is reset" fails. -/
theorem C9_flush_empty_counterexample : (wbFlush 1 wbIdle).last_flush ≠ 1 := by decide

/-- C9 (amended) — after a flush of a non-empty buffer (or the internal
flush triggered by `add`/`maybe_flush`), the buffer is empty and the timer
is reset to the flush time, regardless of the storage outcome; a failed
batch insert loses the readings (they are not re-queued); a `flush()` of an
empty buffer is a no-op. -/
theorem C9_flush_post_state (wb : WB) (now : ℚ) (r : SensorReading) :
    (wb.buffer ≠ [] → (wbFlush now wb).buffer = [] ∧ (wbFlush now wb).last_flush = now) ∧
    (wb.buffer = [] → wbFlush now wb = wb) ∧
    ((wbAdd now wb r).2 = 1 →
      (wbAdd now wb r).1.buffer = [] ∧ (wbAdd now wb r).1.last_flush = now) ∧
    ((wbMaybeFlush now wb).2 = 1 →
      (wbMaybeFlush now wb).1.buffer = [] ∧ (wbMaybeFlush now wb).1.last_flush = now) ∧
    (wb.db.failAt = some wb.db.execCount →
      (wbFlush now wb).db.rows = wb.db.rows ∧ (wbFlush now wb).buffer = []) := by
  refine ⟨?_, ?_, ?_, ?_, ?_⟩
  · intro hne
    simp [wbFlush, wbFlushInternal, hne]
  · intro he
    simp [wbFlush, wbFlushInternal, he]
  · intro h1
    by_cases hcond : (wb.buffer ++ [r]).length ≥ wb.max_size
    · have hne : wb.buffer ++ [r] ≠ [] := by simp
      rw [wbAdd_flush_case now wb r hcond,
          wbFlushInternal_nonempty now { wb with buffer := wb.buffer ++ [r] } (by simp)]
      exact ⟨rfl, rfl⟩
    · rw [wbAdd_noflush_case now wb r hcond] at h1
      exact absurd h1 (by simp)
  · intro h1
    by_cases hcond : wb.buffer ≠ [] ∧ now - wb.last_flush ≥ wb.flush_interval
    · rw [show wbMaybeFlush now wb = (wbFlushInternal now wb, 1) by simp [wbMaybeFlush, hcond],
          wbFlushInternal_nonempty now wb hcond.1]
      exact ⟨rfl, rfl⟩
    · rw [show wbMaybeFlush now wb = (wb, 0) by simp [wbMaybeFlush, hcond]] at h1
      exact absurd h1 (by simp)
  · intro hfail
    by_cases hb : wb.buffer = []
    · simp [wbFlush, wbFlushInternal, hb]
    · have hrows : ((insert_batch now wb.db wb.buffer).2).rows = wb.db.rows := by
        cases hbuf : wb.buffer with
        | nil => exact absurd hbuf hb
        | cons x rest =>
          simp only [insert_batch, insert_batch_loop, receivedAtOr]
          simp only [sqlInsertReadingRow, execGuard, hfail]
          simp [Bind.bind, Except.bind]
      simp [wbFlush, wbFlushInternal, hb, hrows]

/-- Witness for C9 (amended) at concrete inputs, including a storage fault
on the very first SQL statement of the flush. -/
theorem C9_flush_post_state_witness :
    (wbFlush 7 { wb8 with buffer := [r8], db := { DB.empty with failAt := some 0 } }).buffer = [] ∧
    (wbFlush 7 { wb8 with buffer := [r8], db := { DB.empty with failAt := some 0 } }).last_flush = 7 ∧
    (wbFlush 7 { wb8 with buffer := [r8], db := { DB.empty with failAt := some 0 } }).db.rows = [] := by
  have h := C9_flush_post_state
    { wb8 with buffer := [r8], db := { DB.empty with failAt := some 0 } } 7 r8
  refine ⟨(h.1 (by decide)).1, (h.1 (by decide)).2, ?_⟩
  exact (h.2.2.2.2 (by decide)).1

/-! ## Database: implicit error contract of `insert_batch` -/

/-- C10 — `insert_batch` on the empty list returns `(0, 0)` without touching
storage, and a database error at any point during the loop makes it return
`(0, len(readings))`: the whole input is reported as duplicates. -/
theorem C10_insert_batch_error_counts (now : ℚ) (db : DB) (readings : List SensorReading) :
    insert_batch now db [] = ((0, 0), db) ∧
    (insertBatchErrs now db readings = true →
      (insert_batch now db readings).1 = (0, (readings.length : Int))) := by
  constructor
  · simp [insert_batch]
  · intro h
    unfold insertBatchErrs at h
    unfold insert_batch
    cases hread : readings with
    | nil =>
      rw [hread] at h
      simp [insert_batch_loop] at h
    | cons r rest =>
      rw [hread] at h
      cases hloop : insert_batch_loop (pyClockInt now) (r :: rest) 0 0 db with
      | ok res => rw [hloop] at h; simp at h
      | error p => simp [hloop]

/-! ## Database: idempotent duplicate insert (C7) -/

/-- A healthy `conn.execute` only bumps the statement counter. -/
theorem execGuard_none {db : DB} (h : db.failAt = none) :
    execGuard db = .ok { db with execCount := db.execCount + 1 } := by
  unfold execGuard
  rw [h]
  simp

/-- A fresh id is absent from rows whose ids are bounded by the counter. -/
theorem countP_fresh_id (rows : List Row) (c : Int) (hb : ∀ row ∈ rows, row.id ≤ c) :
    rows.countP (fun row => row.id == c + 1) = 0 := by
  rw [List.countP_eq_zero]
  intro row hrow
  have := hb row hrow
  simp only [beq_iff_eq]
  omega

/-- `_update_node_stats` on a healthy connection touches only the `nodes`
table. -/
theorem update_node_stats_ok (db : DB) (d : Int) (a : Option Int) (t : Int)
    (h : db.failAt = none) :
    ∃ db', update_node_stats db d a t = .ok db' ∧ db'.rows = db.rows ∧
      db'.id_counter = db.id_counter ∧ db'.failAt = none := by
  have h1 := @execGuard_none db h
  have h2 : execGuard { db with execCount := db.execCount + 1 } =
      .ok { db with execCount := db.execCount + 1 + 1 } := execGuard_none h
  unfold update_node_stats
  simp only [h1]
  cases hf : ({ db with execCount := db.execCount + 1 } : DB).nodes.find?
      (fun n => n.device_id == d) with
  | none =>
    simp only [hf, h2]
    exact ⟨_, rfl, rfl, rfl, h⟩
  | some existing =>
    simp only [hf, h2]
    exact ⟨_, rfl, rfl, rfl, h⟩

/-- The id of the row built by the insert statements. -/
theorem newRow_id (i : Int) (r : SensorReading) (ra : Int) : (newRow i r ra).id = i := rfl

/-- Behaviour of the `try` body of `insert_reading` on a healthy connection
with a fresh id: it reports a duplicate (without touching any table) when
the key is present, and appends exactly one row otherwise. -/
theorem insert_reading_body_spec (db1 : DB) (r : SensorReading) (ra new_id : Int)
    (hFail : db1.failAt = none)
    (hcnt : db1.rows.countP (fun row => row.id == new_id) = 0) :
    ∃ db', insert_reading_body db1 r ra new_id =
        .ok (!(hasKey db1.rows r.device_id r.timestamp), db') ∧
      db'.rows = (if hasKey db1.rows r.device_id r.timestamp then db1.rows
        else db1.rows ++ [newRow new_id r ra]) ∧
      db'.id_counter = db1.id_counter ∧ db'.failAt = none ∧
      (hasKey db1.rows r.device_id r.timestamp = true → db'.nodes = db1.nodes) := by
  have h1 := @execGuard_none db1 hFail
  have h2 : execGuard { db1 with execCount := db1.execCount + 1 } =
      .ok { db1 with execCount := db1.execCount + 1 + 1 } := execGuard_none hFail
  have h3 : execGuard
      { db1 with
        execCount := db1.execCount + 1,
        rows := db1.rows ++ [newRow new_id r ra] } =
      .ok { db1 with
            execCount := db1.execCount + 1 + 1,
            rows := db1.rows ++ [newRow new_id r ra] } := execGuard_none hFail
  by_cases hk : hasKey db1.rows r.device_id r.timestamp
  · refine ⟨{ db1 with execCount := db1.execCount + 1 + 1 }, ?_, ?_, rfl, hFail, ?_⟩
    · unfold insert_reading_body sqlInsertReadingRow sqlCountById
      simp only [h1, hk, if_true, h2, hcnt]
      simp [hk]
    · simp [hk]
    · intro _; rfl
  · have hne : hasKey db1.rows r.device_id r.timestamp = false := by
      simpa using hk
    obtain ⟨db4, hupd, h4r, h4i, h4f⟩ := update_node_stats_ok
      { db1 with
        execCount := db1.execCount + 1 + 1,
        rows := db1.rows ++ [newRow new_id r ra] }
      r.device_id r.address r.timestamp hFail
    refine ⟨db4, ?_, ?_, ?_, h4f, ?_⟩
    · unfold insert_reading_body sqlInsertReadingRow sqlCountById
      simp only [h1, hne, Bool.false_eq_true, if_false, h3]
      simp only [List.countP_append, hcnt, List.countP_cons, List.countP_nil,
        newRow_id, beq_self_eq_true, if_true, Nat.zero_add]
      simp only [gt_iff_lt, Nat.zero_lt_one, if_true]
      rw [hupd]
      simp [hne]
    · rw [h4r]
      simp [hne]
    · rw [h4i]
    · intro hcontra
      rw [hne] at hcontra
      exact absurd hcontra (by simp)

/-- `insert_reading` on a healthy connection: reports a duplicate exactly
when the key is already stored, leaving both tables unchanged in that case,
and appends exactly the one new row otherwise. -/
theorem insert_reading_spec (now : ℚ) (db : DB) (r : SensorReading)
    (hFail : db.failAt = none) (hIds : IdsBounded db) :
    (insert_reading now db r).1 = !(hasKey db.rows r.device_id r.timestamp) ∧
    (insert_reading now db r).2.rows =
      (if hasKey db.rows r.device_id r.timestamp then db.rows
       else db.rows ++ [insertedRow db r (receivedAtOr r (pyClockInt now))]) ∧
    (insert_reading now db r).2.id_counter = db.id_counter + 1 ∧
    (insert_reading now db r).2.failAt = none ∧
    (hasKey db.rows r.device_id r.timestamp = true →
      (insert_reading now db r).2.nodes = db.nodes) := by
  obtain ⟨db', hbody, hrows, hid, hfail, hnodes⟩ := insert_reading_body_spec
    { db with id_counter := db.id_counter + 1 } r
    (receivedAtOr r (pyClockInt now)) (db.id_counter + 1) hFail
    (countP_fresh_id db.rows db.id_counter hIds)
  simp only [insert_reading, hbody]
  exact ⟨by simp, by simpa [insertedRow] using hrows, by simpa using hid, hfail, hnodes⟩

/-- After an insert the reading's key is present. -/
theorem hasKey_after_insert (now : ℚ) (db : DB) (r : SensorReading)
    (hFail : db.failAt = none) (hIds : IdsBounded db) :
    hasKey (insert_reading now db r).2.rows r.device_id r.timestamp = true := by
  obtain ⟨-, hrows, -, -, -⟩ := insert_reading_spec now db r hFail hIds
  rw [hrows]
  by_cases hk : hasKey db.rows r.device_id r.timestamp
  · rw [if_pos hk]
    exact hk
  · rw [if_neg hk]
    simp [hasKey, List.any_append, insertedRow, newRow]

/-- `IdsBounded` is preserved by `insert_reading`. -/
theorem IdsBounded_after_insert (now : ℚ) (db : DB) (r : SensorReading)
    (hFail : db.failAt = none) (hIds : IdsBounded db) :
    IdsBounded (insert_reading now db r).2 := by
  obtain ⟨-, hrows, hid, -, -⟩ := insert_reading_spec now db r hFail hIds
  intro row hrow
  rw [hrows] at hrow
  rw [hid]
  by_cases hk : hasKey db.rows r.device_id r.timestamp
  · rw [if_pos hk] at hrow
    have := hIds row hrow
    omega
  · rw [if_neg hk] at hrow
    rcases List.mem_append.mp hrow with hmem | hmem
    · have := hIds row hmem
      omega
    · simp only [List.mem_singleton] at hmem
      subst hmem
      simp [insertedRow, newRow]

/-- Under the uniqueness invariant at most one row carries a given key. -/
theorem rowsWithKey_le_one (rows : List Row) (d t : Int) (hu : KeyUnique rows) :
    (rowsWithKey rows d t).length ≤ 1 := by
  have hp : List.Pairwise
      (fun a b => ¬ (a.device_id = b.device_id ∧ a.timestamp = b.timestamp))
      (rowsWithKey rows d t) := hu.sublist (List.filter_sublist rows)
  cases hl : rowsWithKey rows d t with
  | nil => simp
  | cons x tail =>
    cases tail with
    | nil => simp
    | cons y tail2 =>
      exfalso
      rw [hl] at hp
      have hR := (List.pairwise_cons.mp hp).1 y (by simp)
      have hx : x ∈ rowsWithKey rows d t := by rw [hl]; simp
      have hy : y ∈ rowsWithKey rows d t := by rw [hl]; simp
      have hx' := List.mem_filter.mp hx
      have hy' := List.mem_filter.mp hy
      simp only [Bool.and_eq_true, beq_iff_eq] at hx' hy'
      exact hR ⟨by rw [hx'.2.1, hy'.2.1], by rw [hx'.2.2, hy'.2.2]⟩

/-- A stored key has at least one row. -/
theorem rowsWithKey_pos (rows : List Row) (d t : Int) (h : hasKey rows d t = true) :
    0 < (rowsWithKey rows d t).length := by
  rw [hasKey, List.any_eq_true] at h
  obtain ⟨row, hmem, hrow⟩ := h
  have hmemf : row ∈ rowsWithKey rows d t := List.mem_filter.mpr ⟨hmem, hrow⟩
  exact List.length_pos.mpr (fun hnil => by simp [hnil] at hmemf)

/-- An absent key has no rows. -/
theorem rowsWithKey_of_not (rows : List Row) (d t : Int) (h : hasKey rows d t = false) :
    rowsWithKey rows d t = [] := by
  rw [hasKey, List.any_eq_false] at h
  exact List.filter_eq_nil_iff.mpr h

/-- After an insert the reading's key is stored exactly once (given the
uniqueness invariant). -/
theorem rowsWithKey_after_insert (now : ℚ) (db : DB) (r : SensorReading)
    (hFail : db.failAt = none) (hIds : IdsBounded db) (hu : KeyUnique db.rows) :
    (rowsWithKey (insert_reading now db r).2.rows r.device_id r.timestamp).length = 1 := by
  obtain ⟨-, hrows, -, -, -⟩ := insert_reading_spec now db r hFail hIds
  rw [hrows]
  by_cases hk : hasKey db.rows r.device_id r.timestamp
  · rw [if_pos hk]
    have h1 := rowsWithKey_le_one db.rows r.device_id r.timestamp hu
    have h2 := rowsWithKey_pos db.rows r.device_id r.timestamp hk
    omega
  · rw [if_neg hk]
    have h0 := rowsWithKey_of_not db.rows r.device_id r.timestamp (by simpa using hk)
    rw [rowsWithKey, List.filter_append]
    rw [rowsWithKey] at h0
    rw [h0]
    simp [insertedRow, newRow]

/-- A singleton batch whose reading's key is already stored counts one
duplicate and stores nothing. -/
theorem insert_batch_single_dup (now : ℚ) (db : DB) (r : SensorReading)
    (hFail : db.failAt = none) (hIds : IdsBounded db)
    (hk : hasKey db.rows r.device_id r.timestamp = true) :
    (insert_batch now db [r]).1 = (0, 1) ∧ (insert_batch now db [r]).2.rows = db.rows := by
  have h1 : execGuard { db with id_counter := db.id_counter + 1 } =
      .ok { db with id_counter := db.id_counter + 1, execCount := db.execCount + 1 } :=
    execGuard_none hFail
  have h2 : execGuard
      { db with id_counter := db.id_counter + 1, execCount := db.execCount + 1 } =
      .ok { db with id_counter := db.id_counter + 1, execCount := db.execCount + 1 + 1 } :=
    execGuard_none hFail
  have hcnt := countP_fresh_id db.rows db.id_counter hIds
  constructor <;>
    simp [insert_batch, insert_batch_loop, sqlInsertReadingRow, sqlCountById, h1, h2, hk, hcnt]

/-- C7 — inserting a reading whose (device, timestamp) key is already stored
leaves both tables unchanged and is reported as a duplicate
(`insert_reading` returns `False`; a batch counts it as a duplicate);
inserting the same reading twice is equivalent to inserting it once, and
the key is stored exactly once afterwards. -/
theorem C7_duplicate_insert_idempotent (now now' : ℚ) (db : DB) (r : SensorReading)
    (hFail : db.failAt = none) (hIds : IdsBounded db) :
    (hasKey db.rows r.device_id r.timestamp = true →
      (insert_reading now db r).1 = false ∧
      (insert_reading now db r).2.rows = db.rows ∧
      (insert_reading now db r).2.nodes = db.nodes) ∧
    ((insert_reading now' (insert_reading now db r).2 r).1 = false ∧
      (insert_reading now' (insert_reading now db r).2 r).2.rows =
        (insert_reading now db r).2.rows) ∧
    (KeyUnique db.rows →
      (rowsWithKey (insert_reading now db r).2.rows r.device_id r.timestamp).length = 1) ∧
    (hasKey db.rows r.device_id r.timestamp = true →
      (insert_batch now db [r]).1 = (0, 1) ∧ (insert_batch now db [r]).2.rows = db.rows) := by
  obtain ⟨hres, hrows, hid, hfail, hnodes⟩ := insert_reading_spec now db r hFail hIds
  refine ⟨?_, ?_, ?_, ?_⟩
  · intro hk
    exact ⟨by rw [hres, hk]; rfl, by rw [hrows, if_pos hk], hnodes hk⟩
  · have hIds' := IdsBounded_after_insert now db r hFail hIds
    have hk' := hasKey_after_insert now db r hFail hIds
    obtain ⟨hres2, hrows2, -, -, -⟩ :=
      insert_reading_spec now' (insert_reading now db r).2 r hfail hIds'
    exact ⟨by rw [hres2, hk']; rfl, by rw [hrows2, if_pos hk']⟩
  · intro hu
    exact rowsWithKey_after_insert now db r hFail hIds hu
  · intro hk
    exact insert_batch_single_dup now db r hFail hIds hk

/-- Witness for C7 at concrete inputs. -/
theorem C7_duplicate_insert_idempotent_witness :
    (insert_reading 0 db7 r7).1 = false ∧
    (insert_reading 0 db7 r7).2.rows = db7.rows ∧
    (insert_reading 1 (insert_reading 0 db7 r7).2 r7).1 = false ∧
    (rowsWithKey (insert_reading 0 db7 r7).2.rows 5 100).length = 1 ∧
    (insert_batch 0 db7 [r7]).1 = (0, 1) := by
  have h := C7_duplicate_insert_idempotent 0 1 db7 r7 (by decide) (by decide)
  exact ⟨(h.1 (by decide)).1, (h.1 (by decide)).2.1, h.2.1.1,
    h.2.2.1 (by decide), (h.2.2.2 (by decide)).1⟩

/-! ## Command/response engine: error contract and completion predicates -/

/-- List indexing only raises `IndexError`. -/
theorem pyIndex_err {α : Type} (xs : List α) (i : Nat) (e : PyExc)
    (h : pyIndex xs i = .error e) : e = .indexError := by
  unfold pyIndex at h
  cases h2 : xs.get? i with
  | some v => rw [h2] at h; exact absurd h (by simp)
  | none => rw [h2] at h; simpa using h.symm

/-- `int(...)` only raises `ValueError`. -/
theorem pyIntExc_err (s : String) (e : PyExc) (h : pyIntExc s = .error e) :
    e = .valueError := by
  unfold pyIntExc at h
  cases h2 : pyInt s with
  | some v => rw [h2] at h; exact absurd h (by simp)
  | none => rw [h2] at h; simpa using h.symm

/-- Count extraction raises only `ValueError`/`IndexError`. -/
theorem headerCount_err (hd : String) (i : Nat) (e : PyExc)
    (h : headerCount hd i = .error e) : e = .valueError ∨ e = .indexError := by
  unfold headerCount at h
  cases h1 : pyIndex (pySplit hd) i with
  | error e' =>
    rw [h1] at h
    have he : e' = e := by simpa using h
    exact Or.inr (he ▸ pyIndex_err _ _ _ h1)
  | ok tok =>
    rw [h1] at h
    exact Or.inl (pyIntExc_err _ _ h)

/-- `Except.map` preserves errors. -/
theorem except_map_err {α β ε : Type} (f : α → β) (x : Except ε α) (e : ε)
    (h : Except.map f x = .error e) : x = .error e := by
  cases x with
  | error e' => simpa [Except.map] using h
  | ok a => simp [Except.map] at h

/-- The completion predicate never raises `TimeoutError` itself — its only
exceptions are the parse errors of the count headers. -/
theorem irc_err (command : String) (responses : List String) (e : PyExc)
    (h : is_response_complete command responses = .error e) :
    e = .valueError ∨ e = .indexError := by
  unfold is_response_complete at h
  simp only [] at h
  repeat' split at h
  all_goals try exact headerCount_err _ _ _ (except_map_err _ _ _ h)
  all_goals exact absurd h (by simp)

/-- The poll loop never yields `TimeoutError` (the `raise` sits after it). -/
theorem collect_loop_no_timeout (command : String) (timeout start : ℚ) :
    ∀ (steps : List PollStep) (acc : List String),
    collect_loop command timeout start steps acc ≠ .error .timeoutError := by
  intro steps
  induction steps with
  | nil => intro acc; simp [collect_loop]
  | cons step rest ih =>
    intro acc
    unfold collect_loop
    split
    · split
      · rename_i line heq
        cases hc : is_response_complete command (acc ++ [line]) with
        | error e =>
          simp only [hc]
          intro hcontr
          have he : e = .timeoutError := by simpa using hcontr
          rcases irc_err command (acc ++ [line]) e hc with hh | hh <;> simp [he] at hh
        | ok b =>
          cases b
          · simp only [hc]
            exact ih (acc ++ [line])
          · simp only [hc]
            simp
      · split
        · simp
        · exact ih acc
    · simp

/-- C2 — `send_command`: `RuntimeError` when the link is not open;
`TimeoutError` exactly when the poll loop collected zero lines; on a normal
return the response list is the non-empty collected list. -/
theorem C2_send_command_contract (isOpen writeOk : Bool) (command : String)
    (timeout start : ℚ) (steps : List PollStep) (rs : List String) :
    (isOpen = false → send_command isOpen writeOk command timeout start steps =
      .error .runtimeError) ∧
    (isOpen = true → writeOk = true →
      (send_command isOpen writeOk command timeout start steps = .error .timeoutError ↔
        collect_loop command timeout start steps [] = .ok [])) ∧
    (send_command isOpen writeOk command timeout start steps = .ok rs →
      rs ≠ [] ∧ collect_loop command timeout start steps [] = .ok rs) := by
  refine ⟨?_, ?_, ?_⟩
  · intro h
    simp [send_command, h]
  · intro ho hw
    subst ho
    subst hw
    simp only [send_command]
    rw [if_neg (by simp), if_neg (by simp)]
    cases hc : collect_loop command timeout start steps [] with
    | error e =>
      constructor
      · intro hcontr
        have he : e = .timeoutError := by simpa using hcontr
        exact absurd (he ▸ hc) (collect_loop_no_timeout command timeout start steps [])
      · intro hcontr
        exact absurd hcontr (by simp)
    | ok resp =>
      by_cases hr : resp = []
      · subst hr
        simp
      · simp [hr]
  · intro h
    cases isOpen with
    | false =>
      rw [show send_command false writeOk command timeout start steps = .error .runtimeError
        from by simp [send_command]] at h
      exact absurd h (by simp)
    | true =>
      cases writeOk with
      | false =>
        rw [show send_command true false command timeout start steps = .error .runtimeError
          from by simp [send_command]] at h
        exact absurd h (by simp)
      | true =>
        simp only [send_command] at h
        rw [if_neg (by simp), if_neg (by simp)] at h
        cases hc : collect_loop command timeout start steps [] with
        | error e =>
          rw [hc] at h
          exact absurd h (by simp)
        | ok resp =>
          rw [hc] at h
          have h' : (if resp = [] then Except.error PyExc.timeoutError
              else Except.ok resp) = Except.ok rs := h
          by_cases hr : resp = []
          · rw [if_pos hr] at h'
            exact absurd h' (by simp)
          · rw [if_neg hr] at h'
            have hre : resp = rs := by simpa using h'
            subst hre
            exact ⟨hr, rfl⟩

/-- Witness for C2 at concrete inputs: a closed link, a run that times out
with zero lines, and a successful run returning a non-empty response. -/
theorem C2_send_command_contract_witness :
    send_command false true "LIST_NODES" 5 0 [] = .error .runtimeError ∧
    send_command true true "PING" (mkRat 2 10) 0
      [{ tBefore := 0, poll := none, tAfter := mkRat 1 10 }] = .error .timeoutError ∧
    send_command true true "PING" 5 0
      [{ tBefore := 0, poll := some "PONG", tAfter := 0 },
       { tBefore := mkRat 1 10, poll := none, tAfter := 1 }] = .ok ["PONG"] ∧
    (["PONG"] : List String) ≠ [] := by
  have h1 := (C2_send_command_contract false true "LIST_NODES" 5 0 [] []).1 rfl
  have h2 := (C2_send_command_contract true true "PING" (mkRat 2 10) 0
    [{ tBefore := 0, poll := none, tAfter := mkRat 1 10 }] []).2.1 rfl rfl
  have h3 := (C2_send_command_contract true true "PING" 5 0
    [{ tBefore := 0, poll := some "PONG", tAfter := 0 },
     { tBefore := mkRat 1 10, poll := none, tAfter := 1 }] ["PONG"]).2.2
  exact ⟨h1, h2.mpr (by decide), by decide, (h3 (by decide)).1⟩

/-- C5 — for the four mutating verbs the response is complete exactly when
the last line starts with `QUEUED`; the end-to-end `SET_SCHEDULE` exchange
returns the single `QUEUED` line. -/
theorem C5_queued_ack_completion (command : String) (responses : List String) (last : String)
    (hcmd : (pyStartsWith command "SET_SCHEDULE" || pyStartsWith command "REMOVE_SCHEDULE" ||
      pyStartsWith command "SET_WAKE_INTERVAL" || pyStartsWith command "SET_DATETIME") = true) :
    is_response_complete command (responses ++ [last]) = .ok (pyStartsWith last "QUEUED") ∧
    send_command true true "SET_SCHEDULE 3 0 14 30 900 127 0" 5 0
      [{ tBefore := mkRat 1 10, poll := some "QUEUED SET_SCHEDULE 3 5",
         tAfter := mkRat 1 10 }] =
      .ok ["QUEUED SET_SCHEDULE 3 5"] := by
  constructor
  · have hlast : (responses ++ [last]).getLastD "" = last := by
      simp [List.getLastD_eq_getLast?, List.getLast?_concat]
    by_cases h12 : (pyStartsWith command "SET_SCHEDULE" ||
        pyStartsWith command "REMOVE_SCHEDULE") = true
    · simp [is_response_complete, h12, hlast]
    · have h34 : (pyStartsWith command "SET_WAKE_INTERVAL" ||
          pyStartsWith command "SET_DATETIME") = true := by
        simp only [Bool.or_eq_true] at hcmd h12 ⊢
        tauto
      simp [is_response_complete, h12, h34, hlast]
  · decide

/-- Witness for C5 at the end-to-end scenario of the spec. -/
theorem C5_queued_ack_completion_witness :
    is_response_complete "SET_SCHEDULE 3 0 14 30 900 127 0"
      ["QUEUED SET_SCHEDULE 3 5"] = .ok true := by
  have h := (C5_queued_ack_completion "SET_SCHEDULE 3 0 14 30 900 127 0" []
    "QUEUED SET_SCHEDULE 3 5" (by decide)).1
  simpa using h

/-- C4 — the count-header completion predicates: a `NODE_LIST 0` header
alone completes; a header announcing `n` completes once `n` item lines have
arrived; `GET_QUEUE` follows the same pattern with the `QUEUE` header
(count in the third token) and `UPDATE` items; and the two concrete `send`
runs return 3-line and 1-line responses without consuming the remaining
polls. -/
theorem C4_count_header_completion
    (hdr s : String) (n : Int) (rest : List String)
    (hdrQ sQ : String) (nQ : Int) (restQ : List String)
    (h1 : pyStartsWith hdr "NODE_LIST" = true)
    (h2 : (pySplit hdr).get? 1 = some s)
    (h3 : pyInt s = some n)
    (h4 : pyStartsWith hdrQ "QUEUE" = true)
    (h5 : (pySplit hdrQ).get? 2 = some sQ)
    (h6 : pyInt sQ = some nQ) :
    is_response_complete "LIST_NODES" [hdr] = .ok (decide (n = 0)) ∧
    (rest ≠ [] → is_response_complete "LIST_NODES" (hdr :: rest) =
      .ok (decide (n ≤ ((rest.countP (fun r => pyStartsWith r "NODE ") : Nat) : Int)))) ∧
    is_response_complete "GET_QUEUE 2" [hdrQ] = .ok (decide (nQ = 0)) ∧
    (restQ ≠ [] → is_response_complete "GET_QUEUE 2" (hdrQ :: restQ) =
      .ok (decide (nQ ≤ ((restQ.countP (fun r => pyStartsWith r "UPDATE ") : Nat) : Int)))) ∧
    send_command true true "LIST_NODES" 5 0
      [{ tBefore := mkRat 1 10, poll := some "NODE_LIST 2", tAfter := mkRat 1 10 },
       { tBefore := mkRat 2 10, poll := some "NODE 2 123 SENSOR 1 10", tAfter := mkRat 2 10 },
       { tBefore := mkRat 3 10, poll := some "NODE 3 124 SENSOR 1 12", tAfter := mkRat 3 10 },
       { tBefore := mkRat 4 10, poll := some "NODE 4 125 SENSOR 1 14", tAfter := mkRat 4 10 }] =
      .ok ["NODE_LIST 2", "NODE 2 123 SENSOR 1 10", "NODE 3 124 SENSOR 1 12"] ∧
    send_command true true "LIST_NODES" 5 0
      [{ tBefore := mkRat 1 10, poll := some "NODE_LIST 0", tAfter := mkRat 1 10 },
       { tBefore := mkRat 2 10, poll := some "NODE 9 900 SENSOR 1 1", tAfter := mkRat 2 10 }] =
      .ok ["NODE_LIST 0"] := by
  have c1 : pyStartsWith "LIST_NODES" "SET_SCHEDULE" = false := by decide
  have c2 : pyStartsWith "LIST_NODES" "REMOVE_SCHEDULE" = false := by decide
  have c3 : pyStartsWith "LIST_NODES" "SET_WAKE_INTERVAL" = false := by decide
  have c4 : pyStartsWith "LIST_NODES" "SET_DATETIME" = false := by decide
  have q1 : pyStartsWith "GET_QUEUE 2" "SET_SCHEDULE" = false := by decide
  have q2 : pyStartsWith "GET_QUEUE 2" "REMOVE_SCHEDULE" = false := by decide
  have q3 : pyStartsWith "GET_QUEUE 2" "SET_WAKE_INTERVAL" = false := by decide
  have q4 : pyStartsWith "GET_QUEUE 2" "SET_DATETIME" = false := by decide
  have q5 : ("GET_QUEUE 2" = "LIST_NODES") = False := by simp
  have q6 : pyStartsWith "GET_QUEUE 2" "GET_QUEUE" = true := by decide
  have h2' : (pySplit hdr)[1]? = some s := by simpa using h2
  have h5' : (pySplit hdrQ)[2]? = some sQ := by simpa using h5
  refine ⟨?_, ?_, ?_, ?_, by decide, by decide⟩
  · simp [is_response_complete, c1, c2, c3, c4, h1, headerCount, pyIndex, h2', pyIntExc, h3,
      Except.map]
  · intro hrest
    have hlen : ((hdr :: rest).length == 1) = false := by
      cases rest with
      | nil => exact absurd rfl hrest
      | cons a tl => simp
    simp [is_response_complete, c1, c2, c3, c4, h1, hlen, hrest, headerCount, pyIndex, h2',
      pyIntExc, h3, Except.map]
  · simp [is_response_complete, q1, q2, q3, q4, q5, q6, h4, headerCount, pyIndex, h5',
      pyIntExc, h6, Except.map]
  · intro hrest
    have hlen : ((hdrQ :: restQ).length == 1) = false := by
      cases restQ with
      | nil => exact absurd rfl hrest
      | cons a tl => simp
    simp [is_response_complete, q1, q2, q3, q4, q5, q6, h4, hlen, hrest, headerCount, pyIndex,
      h5', pyIntExc, h6, Except.map]

/-- Witness for C4 at concrete headers and item lines. -/
theorem C4_count_header_completion_witness :
    is_response_complete "LIST_NODES" ["NODE_LIST 0"] = .ok true ∧
    is_response_complete "LIST_NODES"
      ["NODE_LIST 2", "NODE 2 123 SENSOR 1 10", "NODE 3 124 SENSOR 1 12"] = .ok true ∧
    is_response_complete "GET_QUEUE 2" ["QUEUE 2 0"] = .ok true ∧
    is_response_complete "GET_QUEUE 2" ["QUEUE 2 1", "UPDATE 1 2 3"] = .ok true := by
  have hA := C4_count_header_completion "NODE_LIST 0" "0" 0
    ["NODE 2 123 SENSOR 1 10"] "QUEUE 2 0" "0" 0 ["UPDATE 1 2 3"]
    (by decide) (by decide) (by decide) (by decide) (by decide) (by decide)
  have hB := C4_count_header_completion "NODE_LIST 2" "2" 2
    ["NODE 2 123 SENSOR 1 10", "NODE 3 124 SENSOR 1 12"] "QUEUE 2 1" "1" 1
    ["UPDATE 1 2 3"]
    (by decide) (by decide) (by decide) (by decide) (by decide) (by decide)
  refine ⟨by simpa using hA.1, ?_, by simpa using hA.2.2.1, ?_⟩
  · have := hB.2.1 (by decide)
    simpa using this
  · have := hB.2.2.2.1 (by decide)
    simpa using this

/-! ## Router: classification priority and reader-loop survival -/

@[simp] theorem logDebug_eq (st : SI) (m : String) : st.logDebug m = st.addLog .debug m := rfl

@[simp] theorem logInfo_eq (st : SI) (m : String) : st.logInfo m = st.addLog .info m := rfl

@[simp] theorem logWarn_eq (st : SI) (m : String) : st.logWarn m = st.addLog .warning m := rfl

@[simp] theorem logError_eq (st : SI) (m : String) : st.logError m = st.addLog .error m := rfl

@[simp] theorem addLog_queue (st : SI) (l : LogLevel) (m : String) :
    (st.addLog l m).response_queue = st.response_queue := rfl

@[simp] theorem addLog_batch (st : SI) (l : LogLevel) (m : String) :
    (st.addLog l m).batch_state = st.batch_state := rfl

@[simp] theorem addLog_db (st : SI) (l : LogLevel) (m : String) :
    (st.addLog l m).database = st.database := rfl

@[simp] theorem addLog_written (st : SI) (l : LogLevel) (m : String) :
    (st.addLog l m).written = st.written := rfl

@[simp] theorem addLog_serial (st : SI) (l : LogLevel) (m : String) :
    (st.addLog l m).serial_open = st.serial_open := rfl

@[simp] theorem write_queue (st : SI) (s : String) :
    (st.write s).response_queue = st.response_queue := rfl

@[simp] theorem write_batch (st : SI) (s : String) :
    (st.write s).batch_state = st.batch_state := rfl

@[simp] theorem write_db (st : SI) (s : String) : (st.write s).database = st.database := rfl

@[simp] theorem write_written (st : SI) (s : String) :
    (st.write s).written = st.written ++ [s] := rfl

/-- Sending a batch ack never touches the response queue, the batch state or
the database. -/
@[simp] theorem send_batch_ack_core (st : SI) (n c s : Int) :
    (send_batch_ack st n c s).response_queue = st.response_queue ∧
    (send_batch_ack st n c s).batch_state = st.batch_state ∧
    (send_batch_ack st n c s).database = st.database := by
  unfold send_batch_ack
  split <;> simp

/-- Answering the datetime query never touches the response queue, the batch
state or the database. -/
theorem handle_datetime_query_core (env : Env) (st : SI) :
    (handle_datetime_query env st).response_queue = st.response_queue ∧
    (handle_datetime_query env st).batch_state = st.batch_state ∧
    (handle_datetime_query env st).database = st.database := by
  unfold handle_datetime_query
  split <;> simp

/-- The single-reading store step never touches the response queue. -/
theorem storeSingleReading_queue (env : Env) (st : SI) (db0 : DB) (r : SensorReading) :
    (storeSingleReading env st db0 r).response_queue = st.response_queue := by
  unfold storeSingleReading
  simp only []
  split <;> simp

/-- The `SENSOR_DATA` `try` block never touches the response queue. -/
theorem handle_sensor_data_try_queue (env : Env) (st : SI) (db0 : DB) (line : String)
    (st' : SI) (h : handle_sensor_data_try env st db0 line = .ok st') :
    st'.response_queue = st.response_queue := by
  unfold handle_sensor_data_try at h
  simp only [] at h
  repeat' split at h
  all_goals try injection h with h
  all_goals try subst h
  all_goals simp_all [storeSingleReading_queue]

/-- The `SENSOR_BATCH` `try` block never touches the response queue. -/
theorem handle_sensor_batch_start_try_queue (env : Env) (st : SI) (line : String)
    (st' : SI) (h : handle_sensor_batch_start_try env st line = .ok st') :
    st'.response_queue = st.response_queue := by
  unfold handle_sensor_batch_start_try at h
  simp only [] at h
  repeat' split at h
  all_goals try injection h with h
  all_goals try subst h
  all_goals simp_all

/-- The `SENSOR_RECORD` `try` block never touches the response queue. -/
theorem handle_sensor_record_try_queue (env : Env) (st : SI) (bs : BatchState)
    (line : String) (st' : SI) (h : handle_sensor_record_try env st bs line = .ok st') :
    st'.response_queue = st.response_queue := by
  unfold handle_sensor_record_try at h
  simp only [] at h
  repeat' split at h
  all_goals try injection h with h
  all_goals try subst h
  all_goals simp_all

/-- The `BATCH_COMPLETE` `try` block never touches the response queue. -/
theorem handle_batch_complete_try_queue (env : Env) (st : SI) (bs : BatchState)
    (line : String) (st' : SI) (h : handle_batch_complete_try env st bs line = .ok st') :
    st'.response_queue = st.response_queue := by
  unfold handle_batch_complete_try at h
  simp only [] at h
  repeat' split at h
  all_goals try injection h with h
  all_goals try subst h
  all_goals simp_all [(send_batch_ack_core _ _ _ _).1]

/-- Queue preservation for the four push handlers, on both the normal and
the exceptional exit. -/
theorem handle_sensor_data_queue (env : Env) (st : SI) (line : String) :
    (routedState (handle_sensor_data env st line)).response_queue = st.response_queue := by
  unfold handle_sensor_data
  cases hdb : st.database with
  | none => simp [routedState]
  | some db0 =>
    cases hb : handle_sensor_data_try env st db0 line with
    | ok st' =>
      have hq := handle_sensor_data_try_queue env st db0 line st' hb
      simp [routedState, hb, hq]
    | error e =>
      cases e <;> simp [routedState, hb]

theorem handle_sensor_batch_start_queue (env : Env) (st : SI) (line : String) :
    (routedState (handle_sensor_batch_start env st line)).response_queue =
      st.response_queue := by
  unfold handle_sensor_batch_start
  cases hb : handle_sensor_batch_start_try env st line with
  | ok st' =>
    have hq := handle_sensor_batch_start_try_queue env st line st' hb
    simp [routedState, hb, hq]
  | error e =>
    cases e <;> simp [routedState, hb]

theorem handle_sensor_record_queue (env : Env) (st : SI) (line : String) :
    (routedState (handle_sensor_record env st line)).response_queue =
      st.response_queue := by
  unfold handle_sensor_record
  cases hbs : st.batch_state with
  | none => simp [routedState]
  | some bs =>
    cases hb : handle_sensor_record_try env st bs line with
    | ok st' =>
      have hq := handle_sensor_record_try_queue env st bs line st' hb
      simp [routedState, hb, hq]
    | error e =>
      cases e <;> simp [routedState, hb]

theorem handle_batch_complete_queue (env : Env) (st : SI) (line : String) :
    (routedState (handle_batch_complete env st line)).response_queue =
      st.response_queue := by
  unfold handle_batch_complete
  cases hbs : st.batch_state with
  | none => simp [routedState]
  | some bs =>
    cases hb : handle_batch_complete_try env st bs line with
    | ok st' =>
      have hq := handle_batch_complete_try_queue env st bs line st' hb
      simp [routedState, hb, hq]
    | error e =>
      cases e <;> simp [routedState, hb]

/-- Incompatible prefixes cannot both start the same line. -/
theorem pyStartsWith_excl (line p q : String)
    (h : pyStartsWith line p = true)
    (h1 : List.isPrefixOf p.data q.data = false)
    (h2 : List.isPrefixOf q.data p.data = false) :
    pyStartsWith line q = false := by
  unfold pyStartsWith at *
  by_contra hq
  rw [Bool.not_eq_false] at hq
  have hp' : p.data <+: line.data := List.isPrefixOf_iff_prefix.mp h
  have hq' : q.data <+: line.data := List.isPrefixOf_iff_prefix.mp hq
  rcases List.prefix_or_prefix_of_prefix hp' hq' with hh | hh
  · rw [← List.isPrefixOf_iff_prefix, h1] at hh
    exact absurd hh (by simp)
  · rw [← List.isPrefixOf_iff_prefix, h2] at hh
    exact absurd hh (by simp)

/-- Calling the `SensorReading` constructor with the keyword `node_address`
raises `TypeError`, whatever the values: it is not a dataclass field. -/
theorem callSensorReading_node_address (v : PyVal) (rest : List (String × PyVal)) :
    callSensorReading (("node_address", v) :: rest) = .error .typeError := by
  unfold callSensorReading
  simp [sensorReadingFields, throw, throwThe, MonadExceptOf.throw, Bind.bind, Except.bind]

/-- C3 — router priority: the exact query token is answered synchronously on
the serial link and never reaches the response queue; push-prefixed lines
are dispatched to their handlers and never reach the response queue; every
other line is appended to the pending command's response queue. -/
theorem C3_router_priority (env : Env) (st : SI) (line : String) :
    (line = "GET_DATETIME" → st.serial_open = true →
      routedOk (handle_line env st line) = true ∧
      (routedState (handle_line env st line)).written =
        st.written ++ [datetimeResponse env.dt] ∧
      (routedState (handle_line env st line)).response_queue = st.response_queue ∧
      (routedState (handle_line env st line)).batch_state = st.batch_state ∧
      (routedState (handle_line env st line)).database = st.database) ∧
    ((pyStartsWith line "SENSOR_DATA " || pyStartsWith line "SENSOR_BATCH " ||
      pyStartsWith line "SENSOR_RECORD " || pyStartsWith line "BATCH_COMPLETE ") = true →
      (routedState (handle_line env st line)).response_queue = st.response_queue) ∧
    (line ≠ "GET_DATETIME" →
      pyStartsWith line "SENSOR_DATA " = false →
      pyStartsWith line "SENSOR_BATCH " = false →
      pyStartsWith line "SENSOR_RECORD " = false →
      pyStartsWith line "BATCH_COMPLETE " = false →
      routedOk (handle_line env st line) = true ∧
      (routedState (handle_line env st line)).response_queue =
        st.response_queue ++ [line] ∧
      (routedState (handle_line env st line)).written = st.written ∧
      (routedState (handle_line env st line)).batch_state = st.batch_state ∧
      (routedState (handle_line env st line)).database = st.database) := by
  refine ⟨?_, ?_, ?_⟩
  · intro hdt hopen
    subst hdt
    simp [handle_line, handle_datetime_query, routedOk, routedState, hopen]
  · intro hor
    by_cases hdt : line = "GET_DATETIME"
    · have hc := (handle_datetime_query_core env (SI.addLog st .debug "Hub line")).1
      simp [handle_line, hdt, routedState, hc]
    · unfold handle_line
      rw [if_neg hdt]
      by_cases h1 : pyStartsWith line "SENSOR_DATA " = true
      · rw [if_pos h1, handle_sensor_data_queue env (st.logDebug "Hub line") line]
        simp
      · rw [if_neg h1]
        by_cases h2 : pyStartsWith line "SENSOR_BATCH " = true
        · rw [if_pos h2, handle_sensor_batch_start_queue env (st.logDebug "Hub line") line]
          simp
        · rw [if_neg h2]
          by_cases h3 : pyStartsWith line "SENSOR_RECORD " = true
          · rw [if_pos h3, handle_sensor_record_queue env (st.logDebug "Hub line") line]
            simp
          · rw [if_neg h3]
            by_cases h4 : pyStartsWith line "BATCH_COMPLETE " = true
            · rw [if_pos h4, handle_batch_complete_queue env (st.logDebug "Hub line") line]
              simp
            · exfalso
              simp only [Bool.or_eq_true] at hor
              tauto
  · intro hdt h1 h2 h3 h4
    unfold handle_line
    rw [if_neg hdt, if_neg (by simp [h1]), if_neg (by simp [h2]), if_neg (by simp [h3]),
      if_neg (by simp [h4])]
    simp [routedOk, routedState]

/-- Witness for C3 at concrete lines: the query token, a push line, and a
response line. -/
theorem C3_router_priority_witness :
    routedOk (handle_line envW stW "GET_DATETIME") = true ∧
    (routedState (handle_line envW stW "GET_DATETIME")).written =
      ["DATETIME 2025-03-04 05:06:07 3\n"] ∧
    (routedState (handle_line envW stW "GET_DATETIME")).response_queue = [] ∧
    (routedState (handle_line envW stW "SENSOR_BATCH 7 3")).response_queue = [] ∧
    (routedState (handle_line envW stW "NODE_LIST 0")).response_queue = ["NODE_LIST 0"] ∧
    routedOk (handle_line envW stW "NODE_LIST 0") = true := by
  have hA := (C3_router_priority envW stW "GET_DATETIME").1 rfl rfl
  have hB := (C3_router_priority envW stW "SENSOR_BATCH 7 3").2.1 (by decide)
  have hC := (C3_router_priority envW stW "NODE_LIST 0").2.2 (by decide) (by decide)
    (by decide) (by decide) (by decide)
  refine ⟨hA.1, ?_, ?_, ?_, ?_, hC.1⟩
  · rw [hA.2.1]
    decide
  · rw [hA.2.2.1]
    decide
  · rw [hB]
    decide
  · rw [hC.2.1]
    decide

/-- C6 — reader-loop survival: the loop always proceeds to the next line;
record/complete pushes with no active batch are dropped with a warning;
push messages with a wrong field count or a non-numeric field are logged
and dropped inside the handler; and the `TypeError` a well-formed
`SENSOR_RECORD` raises (the `node_address` keyword) escapes the handler but
is absorbed by the loop's catch-all, leaving everything except the log
unchanged. -/
theorem C6_reader_loop_survival (env : Env) (st : SI) (line : String)
    (rest : List (Env × String)) (bs : BatchState) (tok : String) (v1 v2 v3 v4 v5 : Int) :
    (read_lines ((env, line) :: rest) st = read_lines rest (read_loop_step env st line)) ∧
    (st.batch_state = none → pyStartsWith line "SENSOR_RECORD " = true →
      read_loop_step env st line =
        (st.logDebug "Hub line").logWarn "Received SENSOR_RECORD without active batch") ∧
    (st.batch_state = none → pyStartsWith line "BATCH_COMPLETE " = true →
      read_loop_step env st line =
        (st.logDebug "Hub line").logWarn "Received BATCH_COMPLETE without active batch") ∧
    (pyStartsWith line "SENSOR_BATCH " = true → (pySplit line).length < 3 →
      read_loop_step env st line =
        (st.logDebug "Hub line").logError "Invalid SENSOR_BATCH format") ∧
    (pyStartsWith line "SENSOR_BATCH " = true → 3 ≤ (pySplit line).length →
      (pySplit line).get? 1 = some tok → pyInt tok = none →
      read_loop_step env st line =
        (st.logDebug "Hub line").logError "Failed to parse SENSOR_BATCH") ∧
    (st.batch_state = some bs → pyStartsWith line "SENSOR_RECORD " = true →
      6 ≤ (pySplit line).length →
      parseIntAt (pySplit line) 1 = .ok v1 → parseIntAt (pySplit line) 2 = .ok v2 →
      parseIntAt (pySplit line) 3 = .ok v3 → parseIntAt (pySplit line) 4 = .ok v4 →
      parseIntAt (pySplit line) 5 = .ok v5 →
      read_loop_step env st line =
        (st.logDebug "Hub line").logError "Error in read loop") := by
  refine ⟨rfl, ?_, ?_, ?_, ?_, ?_⟩
  · intro hbs hrec
    have hdt : ¬ (line = "GET_DATETIME") := fun he => by
      rw [he] at hrec
      exact absurd hrec (by decide)
    have hd := pyStartsWith_excl line "SENSOR_RECORD " "SENSOR_DATA " hrec
      (by decide) (by decide)
    have hb2 := pyStartsWith_excl line "SENSOR_RECORD " "SENSOR_BATCH " hrec
      (by decide) (by decide)
    unfold read_loop_step handle_line
    rw [if_neg hdt, if_neg (by simp [hd]), if_neg (by simp [hb2]), if_pos hrec]
    unfold handle_sensor_record
    simp [hbs]
  · intro hbs hcomp
    have hdt : ¬ (line = "GET_DATETIME") := fun he => by
      rw [he] at hcomp
      exact absurd hcomp (by decide)
    have hd := pyStartsWith_excl line "BATCH_COMPLETE " "SENSOR_DATA " hcomp
      (by decide) (by decide)
    have hb2 := pyStartsWith_excl line "BATCH_COMPLETE " "SENSOR_BATCH " hcomp
      (by decide) (by decide)
    have hr3 := pyStartsWith_excl line "BATCH_COMPLETE " "SENSOR_RECORD " hcomp
      (by decide) (by decide)
    unfold read_loop_step handle_line
    rw [if_neg hdt, if_neg (by simp [hd]), if_neg (by simp [hb2]), if_neg (by simp [hr3]),
      if_pos hcomp]
    unfold handle_batch_complete
    simp [hbs]
  · intro hbat hlen
    have hdt : ¬ (line = "GET_DATETIME") := fun he => by
      rw [he] at hbat
      exact absurd hbat (by decide)
    have hd := pyStartsWith_excl line "SENSOR_BATCH " "SENSOR_DATA " hbat
      (by decide) (by decide)
    unfold read_loop_step handle_line
    rw [if_neg hdt, if_neg (by simp [hd]), if_pos hbat]
    unfold handle_sensor_batch_start handle_sensor_batch_start_try
    simp [hlen]
  · intro hbat hlen htok hint
    have hdt : ¬ (line = "GET_DATETIME") := fun he => by
      rw [he] at hbat
      exact absurd hbat (by decide)
    have hd := pyStartsWith_excl line "SENSOR_BATCH " "SENSOR_DATA " hbat
      (by decide) (by decide)
    have hlen' : ¬ ((pySplit line).length < 3) := by omega
    have htok' : (pySplit line)[1]? = some tok := by simpa using htok
    unfold read_loop_step handle_line
    rw [if_neg hdt, if_neg (by simp [hd]), if_pos hbat]
    unfold handle_sensor_batch_start handle_sensor_batch_start_try
    simp [hlen', parseIntAt, pyIndex, htok', pyIntExc, hint]
  · intro hbs hrec hlen hv1 hv2 hv3 hv4 hv5
    have hdt : ¬ (line = "GET_DATETIME") := fun he => by
      rw [he] at hrec
      exact absurd hrec (by decide)
    have hd := pyStartsWith_excl line "SENSOR_RECORD " "SENSOR_DATA " hrec
      (by decide) (by decide)
    have hb2 := pyStartsWith_excl line "SENSOR_RECORD " "SENSOR_BATCH " hrec
      (by decide) (by decide)
    have hlen' : ¬ ((pySplit line).length < 6) := by omega
    unfold read_loop_step handle_line
    rw [if_neg hdt, if_neg (by simp [hd]), if_neg (by simp [hb2]), if_pos hrec]
    unfold handle_sensor_record handle_sensor_record_try
    simp [hbs, hlen', hv1, hv2, hv3, hv4, hv5, callSensorReading_node_address]

/-- Witness for C6 at concrete malformed and well-formed push lines. -/
theorem C6_reader_loop_survival_witness :
    read_loop_step envW stW "SENSOR_RECORD 7 100 2500 6500 0" =
      (stW.logDebug "Hub line").logWarn "Received SENSOR_RECORD without active batch" ∧
    read_loop_step envW stW "SENSOR_BATCH 5" =
      (stW.logDebug "Hub line").logError "Invalid SENSOR_BATCH format" ∧
    read_loop_step envW stW "SENSOR_BATCH x 3" =
      (stW.logDebug "Hub line").logError "Failed to parse SENSOR_BATCH" ∧
    read_loop_step envW { stW with batch_state := some bsW } "SENSOR_RECORD 7 100 2500 6500 0" =
      (({ stW with batch_state := some bsW } : SI).logDebug "Hub line").logError
        "Error in read loop" := by
  refine ⟨?_, ?_, ?_, ?_⟩
  · exact (C6_reader_loop_survival envW stW "SENSOR_RECORD 7 100 2500 6500 0" [] bsW "x"
      0 0 0 0 0).2.1 rfl (by decide)
  · exact (C6_reader_loop_survival envW stW "SENSOR_BATCH 5" [] bsW "x"
      0 0 0 0 0).2.2.2.1 (by decide) (by decide)
  · exact (C6_reader_loop_survival envW stW "SENSOR_BATCH x 3" [] bsW "x"
      0 0 0 0 0).2.2.2.2.1 (by decide) (by decide) (by decide) (by decide)
  · exact (C6_reader_loop_survival envW { stW with batch_state := some bsW }
      "SENSOR_RECORD 7 100 2500 6500 0" [] bsW "x" 7 100 2500 6500 0).2.2.2.2.2
      rfl (by decide) (by decide) (by decide) (by decide) (by decide) (by decide) (by decide)

/-- C1 — evaluation of the batch-reassembly scenario on the code as written:
every `SENSOR_RECORD` line raises `TypeError` (the handler builds
`SensorReading(node_address=...)`, not a dataclass field), so no record is
collected; `BATCH_COMPLETE 7 3` then sees 0 records, logs the count
mismatch warning, persists nothing, and acks `BATCH_ACK 7 0 1` (status 1),
not a 3-record batch with status 0 as the claim states. -/
theorem C1_batch_reassembly_crash :
    (read_lines c1Lines stW).written = ["BATCH_ACK 7 0 1\n"] ∧
    (read_lines c1Lines stW).database = some DB.empty ∧
    (read_lines c1Lines stW).batch_state = none ∧
    (read_lines c1Lines stW).log.countP
      (fun entry => entry.msg == "Error in read loop") = 3 ∧
    (read_lines c1Lines stW).log.countP
      (fun entry => entry.msg == "Batch count mismatch") = 1 := by
  decide

/-- Witness for C10: a fault on the first SQL statement of a singleton batch
yields `(0, 1)`. -/
theorem C10_insert_batch_error_counts_witness :
    insertBatchErrs 0 { DB.empty with failAt := some 0 } [r8] = true ∧
    (insert_batch 0 { DB.empty with failAt := some 0 } [r8]).1 = (0, 1) ∧
    insert_batch 0 { DB.empty with failAt := some 0 } [] =
      ((0, 0), { DB.empty with failAt := some 0 }) := by
  have h := C10_insert_batch_error_counts 0 { DB.empty with failAt := some 0 } [r8]
  exact ⟨by decide, by simpa using h.2 (by decide), h.1⟩

end Bramble
